import Mathlib

/-!
# OnyxIRC server — verification of the specified core behaviors

A shallow embedding of the OnyxIRC server's core subsystems, translated from
the Go sources, together with theorems settling the specification claims.

Modelling conventions:

* Go byte slices are `List Nat` (each element a byte value), Go `int`/`int64`
  are `Int` (counters, ids), Go `time.Time` instants are `Int` (an abstract
  clock; `time.Now().After(t)` becomes strict `>`).
* Go maps are functions into `Option`; `delete` and insertion are pointwise
  updates, mirroring map semantics exactly.
* The relational store (`database` package) is embedded as explicit state:
  each repository method becomes a pure state transformer implementing the
  success path of its SQL statement (`UPDATE ... WHERE user_id = ?` updates
  the matching record, `INSERT` appends, `SELECT` reads); `sql.ErrNoRows`
  becomes the `Except.error` the Go method returns in that case.
* Randomness (salts, session ids, session keys, nonces, IVs) is passed in as
  an explicit argument, standing for the value the random source produced.
* The Go standard library's AES block cipher and GCM AEAD (`crypto/aes`,
  `crypto/cipher`) are external to the repository; they appear as structures
  carrying the documented contract of those APIs, while everything the
  repository itself implements (PKCS#7 padding, CBC chaining layout, the
  `nonce || ciphertext` wire layout, all length checks) is embedded concretely.
* SHA-256 (`crypto/sha256`) is embedded concretely (FIPS 180-4).
-/

namespace OnyxIRC

/-! ## Byte and word helpers -/

/-- Truncate to a 32-bit word. -/
def w32 (x : Nat) : Nat := x % 4294967296

/-- 32-bit modular addition. -/
def add32 (a b : Nat) : Nat := (a + b) % 4294967296

/-- Rotate a 32-bit word right by `n`. -/
def rotr32 (n x : Nat) : Nat := w32 ((x >>> n) ||| (x <<< (32 - n)))

/-- Logical right shift. -/
def shr32 (n x : Nat) : Nat := x >>> n

/-- SHA-256 Σ₀. -/
def bsig0 (x : Nat) : Nat := (rotr32 2 x) ^^^ (rotr32 13 x) ^^^ (rotr32 22 x)

/-- SHA-256 Σ₁. -/
def bsig1 (x : Nat) : Nat := (rotr32 6 x) ^^^ (rotr32 11 x) ^^^ (rotr32 25 x)

/-- SHA-256 σ₀. -/
def ssig0 (x : Nat) : Nat := (rotr32 7 x) ^^^ (rotr32 18 x) ^^^ (shr32 3 x)

/-- SHA-256 σ₁. -/
def ssig1 (x : Nat) : Nat := (rotr32 17 x) ^^^ (rotr32 19 x) ^^^ (shr32 10 x)

/-- SHA-256 Ch; bitwise not is xor against the 32-bit all-ones mask. -/
def chFn (x y z : Nat) : Nat := (x &&& y) ^^^ ((x ^^^ 4294967295) &&& z)

/-- SHA-256 Maj. -/
def majFn (x y z : Nat) : Nat := (x &&& y) ^^^ (x &&& z) ^^^ (y &&& z)

/-- Big-endian bytes of `v`, `n` bytes wide. -/
def beBytes : Nat → Nat → List Nat
  | 0, _ => []
  | n + 1, v => beBytes n (v / 256) ++ [v % 256]

/-- Group consecutive bytes into big-endian 32-bit words. -/
def bytesToWords : List Nat → List Nat
  | b0 :: b1 :: b2 :: b3 :: rest =>
    (b0 * 16777216 + b1 * 65536 + b2 * 256 + b3) :: bytesToWords rest
  | _ => []

/-- The four big-endian bytes of a 32-bit word. -/
def wordBytes (w : Nat) : List Nat :=
  [w / 16777216 % 256, w / 65536 % 256, w / 256 % 256, w % 256]

/-- Chunk splitting with explicit fuel, so the recursion is structural and
kernel-reducible.  With `fuel ≥ l.length` (as `chunks` supplies) the fuel
never runs out, since every step consumes at least one element. -/
def chunksAux (n : Nat) : Nat → List α → List (List α)
  | _, [] => []
  | 0, l => [l]
  | fuel + 1, l =>
    match n with
    | 0 => [l]
    | m + 1 => l.take (m + 1) :: chunksAux (m + 1) fuel (l.drop (m + 1))

/-- Split a list into consecutive chunks of `n` elements (`n = 0` degenerates
to a single chunk so the function is total). -/
def chunks (n : Nat) (l : List α) : List (List α) := chunksAux n l.length l

/-! ## SHA-256 (FIPS 180-4), concretely -/

/-- The eight working variables of the SHA-256 compression function. -/
structure Hash8 where
  a : Nat
  b : Nat
  c : Nat
  d : Nat
  e : Nat
  f : Nat
  g : Nat
  h : Nat
deriving Repr, DecidableEq

/-- SHA-256 initial hash value. -/
def sha256H0 : Hash8 :=
  ⟨1779033703, 3144134277, 1013904242, 2773480762,
   1359893119, 2600822924, 528734635, 1541459225⟩

/-- SHA-256 round constants. -/
def sha256K : List Nat :=
  [1116352408, 1899447441, 3049323471, 3921009573, 961987163,
   1508970993, 2453635748, 2870763221, 3624381080, 310598401,
   607225278, 1426881987, 1925078388, 2162078206, 2614888103,
   3248222580, 3835390401, 4022224774, 264347078, 604807628,
   770255983, 1249150122, 1555081692, 1996064986, 2554220882,
   2821834349, 2952996808, 3210313671, 3336571891, 3584528711,
   113926993, 338241895, 666307205, 773529912, 1294757372,
   1396182291, 1695183700, 1986661051, 2177026350, 2456956037,
   2730485921, 2820302411, 3259730800, 3345764771, 3516065817,
   3600352804, 4094571909, 275423344, 430227734, 506948616,
   659060556, 883997877, 958139571, 1322822218, 1537002063,
   1747873779, 1955562222, 2024104815, 2227730452, 2361852424,
   2428436474, 2756734187, 3204031479, 3329325298]

/-- Message padding: append `0x80`, zero bytes to 56 mod 64, then the bit
length as 8 big-endian bytes. -/
def sha256pad (msg : List Nat) : List Nat :=
  let zeroCount := (119 - msg.length % 64) % 64
  msg ++ (128 :: List.replicate zeroCount 0) ++ beBytes 8 (8 * msg.length)

/-- Expand the sixteen block words into the 64-entry message schedule. -/
def sha256schedule (w16 : List Nat) : List Nat :=
  (List.range 48).foldl
    (fun w _ =>
      let n := w.length
      w ++ [add32 (add32 (ssig1 (w.getD (n - 2) 0)) (w.getD (n - 7) 0))
              (add32 (ssig0 (w.getD (n - 15) 0)) (w.getD (n - 16) 0))])
    w16

/-- One SHA-256 round, consuming a `(Kₜ, Wₜ)` pair. -/
def sha256round (st : Hash8) (kw : Nat × Nat) : Hash8 :=
  let t1 := add32 (add32 (add32 st.h (bsig1 st.e)) (add32 (chFn st.e st.f st.g) kw.1)) kw.2
  let t2 := add32 (bsig0 st.a) (majFn st.a st.b st.c)
  ⟨add32 t1 t2, st.a, st.b, st.c, add32 st.d t1, st.e, st.f, st.g⟩

/-- Compress one 64-byte block into the chaining state. -/
def sha256compress (st : Hash8) (block : List Nat) : Hash8 :=
  let ws := sha256schedule (bytesToWords block)
  let r := (sha256K.zip ws).foldl sha256round st
  ⟨add32 st.a r.a, add32 st.b r.b, add32 st.c r.c, add32 st.d r.d,
   add32 st.e r.e, add32 st.f r.f, add32 st.g r.g, add32 st.h r.h⟩

/-- SHA-256 digest of a byte string, as 32 bytes. -/
def sha256 (msg : List Nat) : List Nat :=
  let st := (chunks 64 (sha256pad msg)).foldl sha256compress sha256H0
  wordBytes st.a ++ wordBytes st.b ++ wordBytes st.c ++ wordBytes st.d ++
  wordBytes st.e ++ wordBytes st.f ++ wordBytes st.g ++ wordBytes st.h

/-! ## Strings, UTF-8 and hex -/

/-- UTF-8 encoding of a single scalar value. -/
def utf8EncodeCharBytes (c : Char) : List Nat :=
  let n := c.toNat
  if n < 128 then [n]
  else if n < 2048 then [192 + n / 64, 128 + n % 64]
  else if n < 65536 then [224 + n / 4096, 128 + n / 64 % 64, 128 + n % 64]
  else [240 + n / 262144, 128 + n / 4096 % 64, 128 + n / 64 % 64, 128 + n % 64]

/-- The UTF-8 bytes of a string — Go's `[]byte(s)`. -/
def utf8Bytes (s : String) : List Nat := s.data.flatMap utf8EncodeCharBytes

/-- Lowercase hex digit for a value below 16. -/
def hexDigit (n : Nat) : Char :=
  if n < 10 then Char.ofNat (48 + n) else Char.ofNat (87 + n)

/-- Lowercase hex encoding of bytes — Go's `hex.EncodeToString`. -/
def hexEncode (bytes : List Nat) : String :=
  String.mk (bytes.flatMap (fun b => [hexDigit (b / 16), hexDigit (b % 16)]))

/-! ## `auth/hashing.go` -/

/-- `HashSHA256`: lowercase hex of the SHA-256 digest of the UTF-8 bytes. -/
def hashSHA256 (data : String) : String := hexEncode (sha256 (utf8Bytes data))

/-- `HashPassword`: digest of `password ++ salt`. -/
def hashPassword (password salt : String) : String := hashSHA256 (password ++ salt)

/-- `VerifyPassword`: recompute the digest of the submitted password and
compare with the stored hash (`subtle.ConstantTimeCompare` is equality). -/
def verifyPassword (password salt storedHash : String) : Bool :=
  hashPassword password salt == storedHash

/-! ## `auth/aes.go`

The repository composes the Go standard library's primitives: `aes.NewCipher`
yields a 16-byte block cipher, `cipher.NewGCM` an AEAD with a 12-byte nonce
and a 16-byte tag.  Those two stdlib objects appear here as structures with
the contract Go documents for them; everything `aes.go` itself does — PKCS#7
padding, the `IV || ciphertext` and `nonce || ciphertext_with_tag` wire
layouts, every length check, CBC chaining via `cipher.NewCBCEncrypter`'s
documented behavior — is embedded concretely. -/

/-- XOR two byte strings pointwise. -/
def xorBytes (a b : List Nat) : List Nat := List.zipWith (· ^^^ ·) a b

/-- The block cipher `aes.NewCipher(key)` returns for a valid key. -/
structure BlockCipher where
  encryptBlock : List Nat → List Nat
  decryptBlock : List Nat → List Nat

/-- Contract of `cipher.Block` for AES: 16-byte blocks map to 16-byte blocks
and decryption inverts encryption. -/
def BlockCipher.Sound (bc : BlockCipher) : Prop :=
  (∀ b : List Nat, b.length = 16 → (bc.encryptBlock b).length = 16) ∧
  (∀ b : List Nat, b.length = 16 → bc.decryptBlock (bc.encryptBlock b) = b)

/-- The AEAD `cipher.NewGCM(block)` returns: 12-byte nonce, 16-byte tag. -/
structure GCMCipher where
  nonceSize : Nat
  sealFn : List Nat → List Nat → List Nat
  openFn : List Nat → List Nat → Option (List Nat)

/-- Contract of `cipher.AEAD` for GCM with empty associated data. -/
def GCMCipher.Sound (g : GCMCipher) : Prop :=
  g.nonceSize = 12 ∧
  (∀ nonce m : List Nat, nonce.length = 12 → (g.sealFn nonce m).length = m.length + 16) ∧
  (∀ nonce m : List Nat, nonce.length = 12 → g.openFn nonce (g.sealFn nonce m) = some m)

/-- `pkcs7Pad`: pad to a multiple of the block size with the pad length. -/
def pkcs7Pad (data : List Nat) (blockSize : Nat) : List Nat :=
  let padding := blockSize - data.length % blockSize
  data ++ List.replicate padding padding

/-- `pkcs7Unpad`: validate and strip the padding. -/
def pkcs7Unpad (data : List Nat) (blockSize : Nat) : Except String (List Nat) :=
  let length := data.length
  if length = 0 then .error "invalid padding: empty data"
  else
    let padding := (data.getLast?).getD 0
    if padding > blockSize ∨ padding = 0 then .error "invalid padding size"
    else if (data.drop (length - padding)).all (· = padding) then
      .ok (data.take (length - padding))
    else .error "invalid padding"

/-- CBC encryption chaining (`cipher.NewCBCEncrypter(block, iv).CryptBlocks`):
each plaintext block is XORed with the previous ciphertext block (initially
the IV) and then encrypted. -/
def cbcEncryptBlocks (bc : BlockCipher) (prev : List Nat) : List (List Nat) → List (List Nat)
  | [] => []
  | p :: rest =>
    let cblock := bc.encryptBlock (xorBytes p prev)
    cblock :: cbcEncryptBlocks bc cblock rest

/-- CBC decryption chaining (`cipher.NewCBCDecrypter(block, iv).CryptBlocks`). -/
def cbcDecryptBlocks (bc : BlockCipher) (prev : List Nat) : List (List Nat) → List (List Nat)
  | [] => []
  | cblock :: rest =>
    xorBytes (bc.decryptBlock cblock) prev :: cbcDecryptBlocks bc cblock rest

/-- `EncryptAESGCM`: seal with a fresh nonce; wire layout is
`nonce || ciphertext_with_tag` (`gcm.Seal(nonce, nonce, plaintext, nil)`). -/
def encryptAESGCM (g : GCMCipher) (nonce plaintext : List Nat) : List Nat :=
  nonce ++ g.sealFn nonce plaintext

/-- `DecryptAESGCM`: split off the nonce, then open. -/
def decryptAESGCM (g : GCMCipher) (ciphertext : List Nat) : Except String (List Nat) :=
  if ciphertext.length < g.nonceSize then .error "ciphertext too short"
  else
    let nonce := ciphertext.take g.nonceSize
    let rest := ciphertext.drop g.nonceSize
    match g.openFn nonce rest with
    | none => .error "decryption failed"
    | some plaintext => .ok plaintext

/-- `EncryptAESCBC`: PKCS#7-pad, CBC-encrypt under a fresh IV; wire layout is
`IV || ciphertext` (`aes.BlockSize = 16`). -/
def encryptAESCBC (bc : BlockCipher) (iv plaintext : List Nat) : List Nat :=
  let padded := pkcs7Pad plaintext 16
  iv ++ (cbcEncryptBlocks bc iv (chunks 16 padded)).flatten

/-- `DecryptAESCBC`: split off the IV, check the block alignment, CBC-decrypt
and strip the padding. -/
def decryptAESCBC (bc : BlockCipher) (ciphertext : List Nat) : Except String (List Nat) :=
  if ciphertext.length < 16 then .error "ciphertext too short"
  else
    let iv := ciphertext.take 16
    let rest := ciphertext.drop 16
    if rest.length % 16 ≠ 0 then .error "ciphertext is not a multiple of block size"
    else
      match pkcs7Unpad ((cbcDecryptBlocks bc iv (chunks 16 rest)).flatten) 16 with
      | .error e => .error ("failed to remove padding: " ++ e)
      | .ok plaintext => .ok plaintext

/-! ## `models` and the persistent store

The store is state: the `users` table is a list of rows, `user_security_status`
a map keyed by account id, the append-only `user_ip_tracking` table a list.
Each repository method is the success path of its SQL statement. -/

/-- `models.User` (`users` row). -/
structure User where
  userID : Int
  username : String
  passwordHash : String
  passwordSalt : String
  isActive : Bool
  isAdmin : Bool
  lastLoginTime : Option Int
deriving Repr, DecidableEq

/-- `models.UserSecurityStatus` (`user_security_status` row). -/
structure UserSecurityStatus where
  userID : Int
  lastKnownIP : Option String
  ipSuspicionCount : Int
  accountLocked : Bool
  lockReason : Option String
  lockedAt : Option Int
  lockedBy : Option Int
deriving Repr, DecidableEq

/-- A `user_ip_tracking` row (one login attempt). -/
structure LoginAttempt where
  userID : Int
  ipAddress : String
  isSuccessful : Bool
  userAgent : Option String
deriving Repr, DecidableEq

/-- The state behind `SecurityRepository`. -/
structure SecurityDB where
  records : Int → Option UserSecurityStatus
  attempts : List LoginAttempt

/-- `RecordLoginAttempt`: append-only insert. -/
def SecurityDB.recordLoginAttempt (db : SecurityDB) (userID : Int) (ipAddress : String)
    (isSuccessful : Bool) (userAgent : Option String) : SecurityDB :=
  { db with attempts := db.attempts ++ [⟨userID, ipAddress, isSuccessful, userAgent⟩] }

/-- `GetSecurityStatus`: `SELECT ... WHERE user_id = ?`; `sql.ErrNoRows`
becomes the "security status not found" error. -/
def SecurityDB.getSecurityStatus (db : SecurityDB) (userID : Int) :
    Except String UserSecurityStatus :=
  match db.records userID with
  | none => .error "security status not found"
  | some status => .ok status

/-- `UPDATE user_security_status SET ... WHERE user_id = ?`, as a pointwise
update of the matching row (updating a missing row affects nothing). -/
def SecurityDB.updateWhere (db : SecurityDB) (userID : Int)
    (f : UserSecurityStatus → UserSecurityStatus) : SecurityDB :=
  { db with records := fun uid => if uid = userID then (db.records uid).map f else db.records uid }

/-- `UpdateLastKnownIP`. -/
def SecurityDB.updateLastKnownIP (db : SecurityDB) (userID : Int) (ipAddress : String) :
    SecurityDB :=
  db.updateWhere userID (fun s => { s with lastKnownIP := some ipAddress })

/-- `IncrementSuspicionCount`: atomic `ip_suspicion_count + 1` then re-read
the row to return the post-increment value. -/
def SecurityDB.incrementSuspicionCount (db : SecurityDB) (userID : Int) :
    Except String Int × SecurityDB :=
  let db' := db.updateWhere userID (fun s => { s with ipSuspicionCount := s.ipSuspicionCount + 1 })
  match db'.getSecurityStatus userID with
  | .error e => (.error e, db')
  | .ok status => (.ok status.ipSuspicionCount, db')

/-- `ResetSuspicionCount`. -/
def SecurityDB.resetSuspicionCount (db : SecurityDB) (userID : Int) : SecurityDB :=
  db.updateWhere userID (fun s => { s with ipSuspicionCount := 0 })

/-- `LockAccount`. -/
def SecurityDB.lockAccount (db : SecurityDB) (userID : Int) (reason : String)
    (lockedBy : Option Int) (now : Int) : SecurityDB :=
  db.updateWhere userID (fun s =>
    { s with accountLocked := true, lockReason := some reason,
             lockedAt := some now, lockedBy := lockedBy })

/-- `UnlockAccount`: clears the lock and resets the suspicion counter. -/
def SecurityDB.unlockAccount (db : SecurityDB) (userID : Int) : SecurityDB :=
  db.updateWhere userID (fun s =>
    { s with accountLocked := false, ipSuspicionCount := 0,
             lockReason := none, lockedAt := none, lockedBy := none })

/-- `UserRepository.GetByUsername` over the `users` table. -/
def getByUsername (users : List User) (username : String) : Except String User :=
  match users.find? (fun u => u.username = username) with
  | none => .error "user not found"
  | some user => .ok user

/-- `UserRepository.GetByID`. -/
def getUserByID (users : List User) (userID : Int) : Except String User :=
  match users.find? (fun u => u.userID = userID) with
  | none => .error "user not found"
  | some user => .ok user

/-- `UserRepository.UpdateLastLogin` (`SET last_login_time = NOW()`). -/
def updateLastLogin (users : List User) (userID : Int) (now : Int) : List User :=
  users.map (fun u => if u.userID = userID then { u with lastLoginTime := some now } else u)

/-- `UserRepository.SetAdminStatus`. -/
def setAdminStatus (users : List User) (userID : Int) (isAdmin : Bool) : List User :=
  users.map (fun u => if u.userID = userID then { u with isAdmin := isAdmin } else u)

/-- `UserRepository.SetActiveStatus`. -/
def setActiveStatus (users : List User) (userID : Int) (isActive : Bool) : List User :=
  users.map (fun u => if u.userID = userID then { u with isActive := isActive } else u)

/-- `UserRepository.UsernameExists`. -/
def usernameExists (users : List User) (username : String) : Bool :=
  (users.find? (fun u => u.username = username)).isSome

/-! ## `security/ip_tracking.go` -/

/-- Configuration of `IPTrackingService`. -/
structure IPTrackingService where
  maxSuspicion : Int
  enableTracking : Bool
deriving Repr, DecidableEq

/-- `CheckIPAndTrack` (`ip_tracking.go` lines 25–77): the address-anomaly
tracker.  Returns the handler error (Go `error`, `nil` = `.ok ()`) and the
store state after the call. -/
def IPTrackingService.checkIPAndTrack (s : IPTrackingService) (db : SecurityDB)
    (userID : Int) (currentIP : String) (now : Int) : Except String Unit × SecurityDB :=
  if !s.enableTracking then (.ok (), db)
  else
    match db.getSecurityStatus userID with
    | .error e => (.error ("failed to get security status: " ++ e), db)
    | .ok status =>
      if status.accountLocked then
        (.error ("account is locked: " ++ status.lockReason.getD "Account locked"), db)
      else
        match status.lastKnownIP with
        | none => (.ok (), db.updateLastKnownIP userID currentIP)
        | some lastKnownIP =>
          if lastKnownIP ≠ currentIP then
            match db.incrementSuspicionCount userID with
            | (.error e, db1) => (.error ("failed to increment suspicion count: " ++ e), db1)
            | (.ok newCount, db1) =>
              if newCount > s.maxSuspicion then
                let reason := "Too many IP address changes (" ++ toString newCount ++ ")"
                let db2 := db1.lockAccount userID reason none now
                (.error "account locked due to suspicious activity: too many IP address changes", db2)
              else
                (.ok (), db1.updateLastKnownIP userID currentIP)
          else (.ok (), db)

/-! ## `auth/auth.go` -/

/-- `ValidateUsername` (`len` in Go is byte length; the character walk is
over runes). -/
def validateUsername (username : String) : Except String Unit :=
  if (utf8Bytes username).length < 3 then
    .error "username must be at least 3 characters long"
  else if (utf8Bytes username).length > 50 then
    .error "username must be at most 50 characters long"
  else if username.data.all (fun c =>
      (c ≥ 'a' ∧ c ≤ 'z') ∨ (c ≥ 'A' ∧ c ≤ 'Z') ∨ (c ≥ '0' ∧ c ≤ '9') ∨ c = '_' ∨ c = '-') then
    .ok ()
  else .error "username can only contain letters, numbers, underscores, and hyphens"

/-- `isSpecialChar`. -/
def isSpecialChar (c : Char) : Bool := c ∈ "!@#$%^&*()_+-=[]{}|;:,.<>?/".data

/-- `ValidatePasswordStrength`. -/
def validatePasswordStrength (password : String) (minLength : Nat) (requireSpecial : Bool) :
    Except String Unit :=
  if (utf8Bytes password).length < minLength then
    .error ("password must be at least " ++ toString minLength ++ " characters long")
  else if requireSpecial then
    if ¬ password.data.any isSpecialChar then
      .error "password must contain at least one special character"
    else if ¬ password.data.any (fun c => c ≥ '0' ∧ c ≤ '9') then
      .error "password must contain at least one digit"
    else if ¬ password.data.any (fun c => c ≥ 'A' ∧ c ≤ 'Z') then
      .error "password must contain at least one uppercase letter"
    else if ¬ password.data.any (fun c => c ≥ 'a' ∧ c ≤ 'z') then
      .error "password must contain at least one lowercase letter"
    else .ok ()
  else .ok ()

/-- Configuration of `AuthService`. -/
structure AuthService where
  minPasswordLength : Nat
  requireSpecial : Bool
deriving Repr, DecidableEq

/-- `AuthService.Register`: validation then `UserRepository.Create` (the row
id is the table's auto-increment successor; `salt` is the value
`GenerateSalt` produced). -/
def AuthService.register (svc : AuthService) (users : List User)
    (username password salt : String) : Except String User × List User :=
  match validateUsername username with
  | .error e => (.error e, users)
  | .ok _ =>
    if usernameExists users username then (.error "username already exists", users)
    else
      match validatePasswordStrength password svc.minPasswordLength svc.requireSpecial with
      | .error e => (.error e, users)
      | .ok _ =>
        let newID := (users.map User.userID).foldl max 0 + 1
        let user : User :=
          { userID := newID, username := username,
            passwordHash := hashPassword password salt, passwordSalt := salt,
            isActive := true, isAdmin := false, lastLoginTime := none }
        (.ok user, users ++ [user])

/-- `AuthService.Login` (`auth.go` lines 59–86).  `updateLastLoginOk` is the
outcome of the best-effort `UpdateLastLogin` write: when it fails Go only
logs a warning. -/
def AuthService.login (users : List User) (db : SecurityDB)
    (username password ipAddress : String) (updateLastLoginOk : Bool) (now : Int) :
    Except String User × List User × SecurityDB :=
  match getByUsername users username with
  | .error _ =>
    (.error "invalid username or password", users, db.recordLoginAttempt 0 ipAddress false none)
  | .ok user =>
    if !user.isActive then
      (.error "account is inactive", users,
       db.recordLoginAttempt user.userID ipAddress false none)
    else if !verifyPassword password user.passwordSalt user.passwordHash then
      (.error "invalid username or password", users,
       db.recordLoginAttempt user.userID ipAddress false none)
    else
      let db' := db.recordLoginAttempt user.userID ipAddress true none
      let users' := if updateLastLoginOk then updateLastLogin users user.userID now else users
      (.ok user, users', db')

/-! ## `security/session.go` -/

/-- `security.Session`. -/
structure Session where
  sessionID : String
  userID : Int
  user : User
  ipAddress : String
  sessionKey : List Nat
  createdAt : Int
  lastActivity : Int
  expiresAt : Int
deriving Repr, DecidableEq

/-- `security.SessionManager`: the two Go maps become functions into
`Option`, exactly the maps' lookup semantics. -/
structure SessionManager where
  sessions : String → Option Session
  userSessions : Int → Option (List String)
  sessionTimeout : Int

/-- `NewSessionManager`. -/
def SessionManager.empty (sessionTimeout : Int) : SessionManager :=
  ⟨fun _ => none, fun _ => none, sessionTimeout⟩

/-- `CreateSession`: `sessionID` is the value `generateSessionID` produced.
The session is stored under its id and appended to the user's id list (which
is created on first use). -/
def SessionManager.createSession (sm : SessionManager) (user : User) (ipAddress : String)
    (sessionKey : List Nat) (sessionID : String) (now : Int) : Session × SessionManager :=
  let session : Session :=
    { sessionID := sessionID, userID := user.userID, user := user, ipAddress := ipAddress,
      sessionKey := sessionKey, createdAt := now, lastActivity := now,
      expiresAt := now + sm.sessionTimeout }
  (session,
   { sm with
     sessions := fun sid => if sid = sessionID then some session else sm.sessions sid,
     userSessions := fun uid =>
       if uid = user.userID then some ((sm.userSessions user.userID).getD [] ++ [sessionID])
       else sm.userSessions uid })

/-- `GetSession`: absent id is "session not found"; a present session is
"session expired" exactly when `time.Now().After(ExpiresAt)`, i.e. strictly
past the expiry. -/
def SessionManager.getSession (sm : SessionManager) (sessionID : String) (now : Int) :
    Except String Session :=
  match sm.sessions sessionID with
  | none => .error "session not found"
  | some session =>
    if now > session.expiresAt then .error "session expired"
    else .ok session

/-- `UpdateActivity`: refresh `LastActivity` and push the expiry out. -/
def SessionManager.updateActivity (sm : SessionManager) (sessionID : String) (now : Int) :
    Except String Unit × SessionManager :=
  match sm.sessions sessionID with
  | none => (.error "session not found", sm)
  | some session =>
    let session' := { session with lastActivity := now, expiresAt := now + sm.sessionTimeout }
    (.ok (),
     { sm with sessions := fun sid => if sid = sessionID then some session' else sm.sessions sid })

/-- `DestroySession`: delete from the session map, remove the first matching
id from the owner's list, and drop the owner's entry when the list empties
(the Go loop assigns the shortened slice only on a hit; on a miss the list is
unchanged, which coincides with `List.erase` of an absent element). -/
def SessionManager.destroySession (sm : SessionManager) (sessionID : String) :
    Except String Unit × SessionManager :=
  match sm.sessions sessionID with
  | none => (.error "session not found", sm)
  | some session =>
    let remaining := ((sm.userSessions session.userID).getD []).erase sessionID
    (.ok (),
     { sm with
       sessions := fun sid => if sid = sessionID then none else sm.sessions sid,
       userSessions := fun uid =>
         if uid = session.userID then (if remaining = [] then none else some remaining)
         else sm.userSessions uid })

/-- `DestroyUserSessions`: delete every listed session, then the list entry;
no sessions is a silent success. -/
def SessionManager.destroyUserSessions (sm : SessionManager) (userID : Int) :
    Except String Unit × SessionManager :=
  match sm.userSessions userID with
  | none => (.ok (), sm)
  | some sessionIDs =>
    (.ok (),
     { sm with
       sessions := sessionIDs.foldl (fun m sid => fun x => if x = sid then none else m x) sm.sessions,
       userSessions := fun uid => if uid = userID then none else sm.userSessions uid })

/-- The mutual-consistency invariant of the registry's two indexes, as the
specification claims it: ids listed for an account resolve to sessions of
that account, stored sessions are listed under their account, and no account
keeps an empty list. -/
def SessionManager.Consistent (sm : SessionManager) : Prop :=
  (∀ uid ids sid, sm.userSessions uid = some ids → sid ∈ ids →
    ∃ s, sm.sessions sid = some s ∧ s.userID = uid) ∧
  (∀ sid s, sm.sessions sid = some s →
    ∃ ids, sm.userSessions s.userID = some ids ∧ sid ∈ ids) ∧
  (∀ uid ids, sm.userSessions uid = some ids → ids ≠ [])

/-- Well-formedness: consistency plus duplicate-freeness of each id list
(session ids are unique, so a list never holds an id twice). -/
def SessionManager.WF (sm : SessionManager) : Prop :=
  sm.Consistent ∧ ∀ uid ids, sm.userSessions uid = some ids → ids.Nodup

/-! ## `admin/commands.go` -/

/-- A `user_bans` row. -/
structure UserBan where
  userID : Int
  bannedBy : Int
  reason : String
  expiresInSeconds : Option Int
  isActive : Bool
deriving Repr, DecidableEq

/-- An `admin_action_log` row. -/
structure AdminActionLog where
  adminID : Int
  actionType : String
  targetUserID : Option Int
  targetChannelID : Option Int
  details : String
deriving Repr, DecidableEq

/-- The store state the admin service reads and writes. -/
structure AdminState where
  users : List User
  bans : List UserBan
  log : List AdminActionLog
  security : SecurityDB
  config : String → Option String

/-- `AdminRepository.LogAction`: append-only audit insert. -/
def AdminState.logAction (st : AdminState) (adminID : Int) (actionType : String)
    (targetUserID targetChannelID : Option Int) (details : String) : AdminState :=
  { st with log := st.log ++ [⟨adminID, actionType, targetUserID, targetChannelID, details⟩] }

/-- `IsAdmin`: fetch the actor and read the flag. -/
def AdminState.isAdmin (st : AdminState) (userID : Int) : Except String Bool :=
  match getUserByID st.users userID with
  | .error e => .error e
  | .ok user => .ok user.isAdmin

/-- `RequireAdmin`: the permission gate every operator action runs first. -/
def AdminState.requireAdmin (st : AdminState) (userID : Int) : Except String Unit :=
  match st.isAdmin userID with
  | .error e => .error e
  | .ok true => .ok ()
  | .ok false => .error "permission denied: admin privileges required"

/-- `MakeAdmin`. -/
def AdminState.makeAdmin (st : AdminState) (adminID targetUserID : Int) :
    Except String Unit × AdminState :=
  match st.requireAdmin adminID with
  | .error e => (.error e, st)
  | .ok _ =>
    let st1 := { st with users := setAdminStatus st.users targetUserID true }
    let details := "Granted admin privileges to user ID " ++ toString targetUserID
    (.ok (), st1.logAction adminID "makeadmin" (some targetUserID) none details)

/-- `RemoveAdmin`: permission gate, then the self-demotion check. -/
def AdminState.removeAdmin (st : AdminState) (adminID targetUserID : Int) :
    Except String Unit × AdminState :=
  match st.requireAdmin adminID with
  | .error e => (.error e, st)
  | .ok _ =>
    if adminID = targetUserID then (.error "cannot remove your own admin privileges", st)
    else
      let st1 := { st with users := setAdminStatus st.users targetUserID false }
      let details := "Revoked admin privileges from user ID " ++ toString targetUserID
      (.ok (), st1.logAction adminID "removeadmin" (some targetUserID) none details)

/-- `BanUser`: gate, resolve, refuse admins, insert the ban (timed when the
duration is positive), deactivate the account, audit. -/
def AdminState.banUser (st : AdminState) (adminID : Int) (username reason : String)
    (durationSeconds : Int) : Except String Unit × AdminState :=
  match st.requireAdmin adminID with
  | .error e => (.error e, st)
  | .ok _ =>
    match getByUsername st.users username with
    | .error e => (.error ("user not found: " ++ e), st)
    | .ok targetUser =>
      if targetUser.isAdmin then (.error "cannot ban admin users", st)
      else
        let expiry := if durationSeconds > 0 then some durationSeconds else none
        let newBan : UserBan := ⟨targetUser.userID, adminID, reason, expiry, true⟩
        let st1 := { st with bans := st.bans ++ [newBan] }
        let st2 := { st1 with users := setActiveStatus st1.users targetUser.userID false }
        let details := "Banned user " ++ username ++ " (ID " ++ toString targetUser.userID ++ "): " ++ reason
        (.ok (), st2.logAction adminID "ban" (some targetUser.userID) none details)

/-- `UnbanUser`: gate, resolve, deactivate every active ban, reactivate the
account, audit. -/
def AdminState.unbanUser (st : AdminState) (adminID : Int) (username : String) :
    Except String Unit × AdminState :=
  match st.requireAdmin adminID with
  | .error e => (.error e, st)
  | .ok _ =>
    match getByUsername st.users username with
    | .error e => (.error ("user not found: " ++ e), st)
    | .ok targetUser =>
      let st1 := { st with bans := st.bans.map (fun b : UserBan =>
        if b.userID = targetUser.userID ∧ b.isActive then { b with isActive := false } else b) }
      let st2 := { st1 with users := setActiveStatus st1.users targetUser.userID true }
      let details := "Unbanned user " ++ username ++ " (ID " ++ toString targetUser.userID ++ ")"
      (.ok (), st2.logAction adminID "unban" (some targetUser.userID) none details)

/-- `UnlockAccount` (admin): gate, resolve, store unlock, audit. -/
def AdminState.unlockAccount (st : AdminState) (adminID : Int) (username : String) :
    Except String Unit × AdminState :=
  match st.requireAdmin adminID with
  | .error e => (.error e, st)
  | .ok _ =>
    match getByUsername st.users username with
    | .error e => (.error ("user not found: " ++ e), st)
    | .ok targetUser =>
      let st1 := { st with security := st.security.unlockAccount targetUser.userID }
      let details := "Unlocked account for user " ++ username ++ " (ID " ++ toString targetUser.userID ++ ")"
      (.ok (), st1.logAction adminID "unlock" (some targetUser.userID) none details)

/-- `KickUser`: gate, resolve, refuse admins; audit only — the connection
engine performs the disconnect. -/
def AdminState.kickUser (st : AdminState) (adminID : Int) (username reason : String) :
    Except String Unit × AdminState :=
  match st.requireAdmin adminID with
  | .error e => (.error e, st)
  | .ok _ =>
    match getByUsername st.users username with
    | .error e => (.error ("user not found: " ++ e), st)
    | .ok targetUser =>
      if targetUser.isAdmin then (.error "cannot kick admin users", st)
      else
        let details := "Kicked user " ++ username ++ " (ID " ++ toString targetUser.userID ++ "): " ++ reason
        (.ok (), st.logAction adminID "kick" (some targetUser.userID) none details)

/-- `BroadcastMessage`: gate, audit only — the engine fans out the NOTICE. -/
def AdminState.broadcastMessage (st : AdminState) (adminID : Int) (message : String) :
    Except String Unit × AdminState :=
  match st.requireAdmin adminID with
  | .error e => (.error e, st)
  | .ok _ =>
    (.ok (), st.logAction adminID "broadcast" none none ("Broadcast message: " ++ message))

/-- `GetServerStats`: gate, then read-only aggregation (each failed read is
skipped, mirroring the `if err == nil` guards). -/
def AdminState.getServerStats (st : AdminState) (adminID : Int) :
    Except String (List (String × String)) :=
  match st.requireAdmin adminID with
  | .error e => .error e
  | .ok _ =>
    let users := st.users
    let base :=
      [("total_users", toString users.length),
       ("active_users", toString (users.filter (fun u => u.isActive)).length),
       ("admin_users", toString (users.filter (fun u => u.isAdmin)).length),
       ("active_bans", toString (st.bans.filter (fun b => b.isActive)).length)]
    let withVersion :=
      match st.config "server.version" with
      | some v => base ++ [("server_version", v)]
      | none => base
    match st.config "security.max_ip_suspicion" with
    | some v => .ok (withVersion ++ [("max_ip_suspicion", v)])
    | none => .ok withVersion

/-- `GetAdminLog`: gate, then a read-only page of the audit log. -/
def AdminState.getAdminLog (st : AdminState) (adminID : Int) (limit offset : Nat) :
    Except String (List AdminActionLog) :=
  match st.requireAdmin adminID with
  | .error e => .error e
  | .ok _ => .ok ((st.log.reverse.drop offset).take limit)

/-! ## `server/client.go` and the command handlers (`part_009`) -/

/-- `strings.Fields`: split around runs of whitespace, no empty fields. -/
def fields (line : String) : List String :=
  ((line.data.foldr
      (fun ch acc =>
        if ch.isWhitespace then [] :: acc
        else match acc with
             | [] => [[ch]]
             | w :: ws => (ch :: w) :: ws)
      []).filter (· ≠ [])).map String.mk

/-- `strings.ToUpper` (the command vocabulary is ASCII). -/
def toUpperStr (s : String) : String := String.mk (s.data.map Char.toUpper)

/-- `strings.ToLower` (ASCII subcommands). -/
def toLowerStr (s : String) : String := String.mk (s.data.map Char.toLower)

/-- `strings.Join(parts, " ")`. -/
def joinSpace (parts : List String) : String := String.intercalate " " parts

/-- Strip one leading `:` — the IRC trailing-argument convention. -/
def stripColon (s : String) : String := if s.startsWith ":" then s.drop 1 else s

/-- `GenerateAESKey`: key-size validation; `randomKey` is the generated key. -/
def generateAESKey (keySize : Nat) (randomKey : List Nat) : Except String (List Nat) :=
  if keySize ≠ 128 ∧ keySize ≠ 192 ∧ keySize ≠ 256 then
    .error "invalid AES key size: must be 128, 192, or 256 bits"
  else .ok randomKey

/-- The per-connection state of `server.Client` (the transport endpoint
itself is outside the model; `sent` records the `Send` calls in order). -/
structure ClientState where
  ipAddress : String
  authenticated : Bool
  user : Option User
  sessionID : String
  sessionKey : List Nat
  channels : List Int
  sent : List String
  disconnected : Bool

/-- `Client.Send` (ordered by the writer mutex). -/
def ClientState.send (c : ClientState) (message : String) : ClientState :=
  { c with sent := c.sent ++ [message] }

/-- The server-side state a handler touches. -/
structure ServerState where
  serverName : String
  aesKeySize : Nat
  users : List User
  security : SecurityDB
  ipService : IPTrackingService
  sm : SessionManager
  clients : String → Bool

/-- `Server.AddClient`: index the connection by its session id. -/
def ServerState.addClient (srv : ServerState) (sessionID : String) : ServerState :=
  { srv with clients := fun sid => if sid = sessionID then true else srv.clients sid }

/-- `Server.RemoveClient`. -/
def ServerState.removeClient (srv : ServerState) (sessionID : String) : ServerState :=
  { srv with clients := fun sid => if sid = sessionID then false else srv.clients sid }

/-- What one handler produces: the Go `error` return and both states after. -/
structure HandlerResult where
  res : Except String Unit
  client : ClientState
  server : ServerState

/-- `Client.requireAuth`. -/
def requireAuth (c : ClientState) : Except String Unit :=
  if !c.authenticated then .error "not authenticated" else .ok ()

/-- `Client.Disconnect` (`sync.Once`): on the first call of an authenticated
connection, drop the client index entry and destroy the session. -/
def disconnectClient (c : ClientState) (srv : ServerState) : ClientState × ServerState :=
  if c.disconnected then (c, srv)
  else
    let c' := { c with disconnected := true }
    if c.authenticated ∧ c.sessionID ≠ "" then
      (c', { (srv.removeClient c.sessionID) with sm := (srv.sm.destroySession c.sessionID).2 })
    else (c', srv)

/-- The handler bodies living behind the authentication gate in other files
(`handleJoinComplete`, `handlePartComplete`, `handlePrivMsgComplete`, the
`ADMIN` subcommand dispatch, the `KEYEXCHANGE` reply).  `processCommand`'s
properties proved below hold for every instantiation, hence for the real
bodies. -/
structure GatedHandlers where
  joinComplete : ClientState → ServerState → String → HandlerResult
  partComplete : ClientState → ServerState → String → HandlerResult
  privMsgComplete : ClientState → ServerState → String → String → HandlerResult
  adminRest : ClientState → ServerState → List String → HandlerResult
  keyExchangeRest : ClientState → ServerState → List String → HandlerResult

/-- The values the random source and clock produce during one command. -/
structure RandomEnv where
  salt : String
  sessionKey : List Nat
  sessionID : String
  updateLastLoginOk : Bool
  now : Int

/-- `handleRegister`. -/
def handleRegister (c : ClientState) (srv : ServerState) (parts : List String)
    (env : RandomEnv) : HandlerResult :=
  if parts.length < 3 then ⟨.error "usage: REGISTER <username> <password_hash>", c, srv⟩
  else
    let username := parts.getD 1 ""
    let passwordHash := parts.getD 2 ""
    match AuthService.register ⟨8, false⟩ srv.users username passwordHash env.salt with
    | (.error e, users') =>
      ⟨.error ("registration failed: " ++ e), c, { srv with users := users' }⟩
    | (.ok _, users') =>
      let c' := c.send (":" ++ srv.serverName ++ " NOTICE * :Registration successful. Please login.")
      ⟨.ok (), c', { srv with users := users' }⟩

/-- `handleLogin` (`part_009` lines 35–84): authenticate, run the address
check, generate the session key, create the session, mark the connection
authenticated, index it, send the notices.  Note the source has no
`authenticated` guard: a logged-in connection runs the whole path again. -/
def handleLogin (c : ClientState) (srv : ServerState) (parts : List String)
    (env : RandomEnv) : HandlerResult :=
  if parts.length < 3 then ⟨.error "usage: LOGIN <username> <password_hash>", c, srv⟩
  else
    let username := parts.getD 1 ""
    let passwordHash := parts.getD 2 ""
    let ipAddress := c.ipAddress
    match AuthService.login srv.users srv.security username passwordHash ipAddress
        env.updateLastLoginOk env.now with
    | (.error e, users', security') =>
      ⟨.error ("login failed: " ++ e), c, { srv with users := users', security := security' }⟩
    | (.ok user, users', security') =>
      let srv1 := { srv with users := users', security := security' }
      match srv1.ipService.checkIPAndTrack srv1.security user.userID ipAddress env.now with
      | (.error e, security2) =>
        ⟨.error ("login blocked: " ++ e), c, { srv1 with security := security2 }⟩
      | (.ok _, security2) =>
        let srv2 := { srv1 with security := security2 }
        match generateAESKey srv2.aesKeySize env.sessionKey with
        | .error e => ⟨.error ("failed to generate session key: " ++ e), c, srv2⟩
        | .ok sessionKey =>
          let (session, sm') := srv2.sm.createSession user ipAddress sessionKey env.sessionID env.now
          let c1 : ClientState :=
            { c with
              user := some user
              authenticated := true
              sessionID := session.sessionID
              sessionKey := sessionKey }
          let srv3 := ({ srv2 with sm := sm' }).addClient session.sessionID
          let c2 := (c1.send (":" ++ srv.serverName ++ " NOTICE " ++ username ++
                      " :Login successful. Session ID: " ++ session.sessionID)).send
                    (":" ++ srv.serverName ++ " NOTICE " ++ username ++
                      " :Please exchange encryption keys using KEYEXCHANGE")
          ⟨.ok (), c2, srv3⟩

/-- `handleKeyExchange`: gate, arity, then the reply (gated body). -/
def handleKeyExchange (H : GatedHandlers) (c : ClientState) (srv : ServerState)
    (parts : List String) : HandlerResult :=
  match requireAuth c with
  | .error e => ⟨.error e, c, srv⟩
  | .ok _ =>
    if parts.length < 2 then ⟨.error "usage: KEYEXCHANGE <encrypted_session_key>", c, srv⟩
    else H.keyExchangeRest c srv parts

/-- `handleJoin`: gate, arity, then the channel logic (gated body). -/
def handleJoin (H : GatedHandlers) (c : ClientState) (srv : ServerState)
    (parts : List String) : HandlerResult :=
  match requireAuth c with
  | .error e => ⟨.error e, c, srv⟩
  | .ok _ =>
    if parts.length < 2 then ⟨.error "usage: JOIN <channel>", c, srv⟩
    else H.joinComplete c srv (parts.getD 1 "")

/-- `handlePart`. -/
def handlePart (H : GatedHandlers) (c : ClientState) (srv : ServerState)
    (parts : List String) : HandlerResult :=
  match requireAuth c with
  | .error e => ⟨.error e, c, srv⟩
  | .ok _ =>
    if parts.length < 2 then ⟨.error "usage: PART <channel>", c, srv⟩
    else H.partComplete c srv (parts.getD 1 "")

/-- `handlePrivMsg`. -/
def handlePrivMsg (H : GatedHandlers) (c : ClientState) (srv : ServerState)
    (parts : List String) : HandlerResult :=
  match requireAuth c with
  | .error e => ⟨.error e, c, srv⟩
  | .ok _ =>
    if parts.length < 3 then ⟨.error "usage: PRIVMSG <target> :<message>", c, srv⟩
    else handlePrivMsgBody H c srv parts
where
  /-- target and message extraction, then the delivery logic (gated body). -/
  handlePrivMsgBody (H : GatedHandlers) (c : ClientState) (srv : ServerState)
      (parts : List String) : HandlerResult :=
    H.privMsgComplete c srv (parts.getD 1 "") (stripColon (joinSpace (parts.drop 2)))

/-- `handleQuit`: send the closing line and disconnect; returns `nil`. -/
def handleQuit (c : ClientState) (srv : ServerState) (parts : List String) : HandlerResult :=
  let message := if parts.length > 1 then stripColon (joinSpace (parts.drop 1)) else "Client quit"
  let c1 := c.send ("ERROR :Closing connection: " ++ message)
  let (c2, srv') := disconnectClient c1 srv
  ⟨.ok (), c2, srv'⟩

/-- `handlePing`: `PONG` with the token or the server name. -/
def handlePing (c : ClientState) (srv : ServerState) (parts : List String) : HandlerResult :=
  if parts.length < 2 then ⟨.ok (), c.send ("PONG :" ++ srv.serverName), srv⟩
  else ⟨.ok (), c.send ("PONG :" ++ parts.getD 1 ""), srv⟩

/-- `handleAdminCommand` (`admin_handlers.go`): gate, arity, then the
subcommand dispatch (gated body). -/
def handleAdminCommand (H : GatedHandlers) (c : ClientState) (srv : ServerState)
    (parts : List String) : HandlerResult :=
  match requireAuth c with
  | .error e => ⟨.error e, c, srv⟩
  | .ok _ =>
    if parts.length < 2 then ⟨.error "usage: ADMIN <subcommand> [args...]", c, srv⟩
    else H.adminRest c srv parts

/-- `processCommand` (`client.go` lines 94–126): split the line into fields,
uppercase the first, dispatch. -/
def processCommand (H : GatedHandlers) (env : RandomEnv) (c : ClientState)
    (srv : ServerState) (line : String) : HandlerResult :=
  match fields line with
  | [] => ⟨.ok (), c, srv⟩
  | cmd :: rest =>
    let parts := cmd :: rest
    let command := toUpperStr cmd
    if command = "REGISTER" then handleRegister c srv parts env
    else if command = "LOGIN" then handleLogin c srv parts env
    else if command = "KEYEXCHANGE" then handleKeyExchange H c srv parts
    else if command = "JOIN" then handleJoin H c srv parts
    else if command = "PART" then handlePart H c srv parts
    else if command = "PRIVMSG" then handlePrivMsg H c srv parts
    else if command = "QUIT" then handleQuit c srv parts
    else if command = "PING" then handlePing c srv parts
    else if command = "PONG" then ⟨.ok (), c, srv⟩
    else if command = "ADMIN" then handleAdminCommand H c srv parts
    else ⟨.error ("unknown command: " ++ command), c, srv⟩

/-! ## Concrete fixture states (used by witnesses) -/

/-- A registered, active, non-operator account. -/
def sampleUser : User :=
  ⟨1, "alice", hashPassword "68756e74657232" "73616c74", "73616c74", true, false, none⟩

/-- An operator account. -/
def sampleAdmin : User :=
  ⟨2, "eve", hashPassword "6576657061737332" "6f70736c74", "6f70736c74", true, true, none⟩

/-- A live session for `sampleUser`, expiring at time 100. -/
def sampleSession : Session := ⟨"sid1", 1, sampleUser, "10.0.0.1", [1, 2], 0, 0, 100⟩

/-- A registry holding exactly `sampleSession`. -/
def sampleSM : SessionManager :=
  ⟨fun sid => if sid = "sid1" then some sampleSession else none,
   fun uid => if uid = 1 then some ["sid1"] else none, 3600⟩

/-- A security store with one record for account 1. -/
def sampleSecurityDB (status : UserSecurityStatus) : SecurityDB :=
  ⟨fun uid => if uid = 1 then some status else none, []⟩

/-- Account 1's record: last address `10.0.0.1`, suspicion count 3, unlocked. -/
def sampleStatusHigh : UserSecurityStatus := ⟨1, some "10.0.0.1", 3, false, none, none, none⟩

/-- Account 1's record with suspicion count 2. -/
def sampleStatusLow : UserSecurityStatus := ⟨1, some "10.0.0.1", 2, false, none, none, none⟩

/-- Account 1's record locked by an operator. -/
def sampleStatusLocked : UserSecurityStatus :=
  ⟨1, some "10.0.0.1", 5, true, some "manual lock", some 50, some 2⟩

/-- The command vocabulary `processCommand` dispatches on. -/
def knownCommands : List String :=
  ["REGISTER", "LOGIN", "KEYEXCHANGE", "JOIN", "PART", "PRIVMSG", "QUIT", "PING", "PONG", "ADMIN"]

/-- Gated handler bodies that accept and change nothing. -/
def trivialHandlers : GatedHandlers :=
  ⟨fun c srv _ => ⟨.ok (), c, srv⟩, fun c srv _ => ⟨.ok (), c, srv⟩,
   fun c srv _ _ => ⟨.ok (), c, srv⟩, fun c srv _ => ⟨.ok (), c, srv⟩,
   fun c srv _ => ⟨.ok (), c, srv⟩⟩

/-- A connection that has not authenticated yet. -/
def sampleUnauthClient : ClientState := ⟨"10.0.0.1", false, none, "", [], [], [], false⟩

/-- A connection already authenticated as `sampleUser` under session `sid1`. -/
def sampleAuthedClient : ClientState :=
  ⟨"10.0.0.1", true, some sampleUser, "sid1", [1, 2], [], [], false⟩

/-- A server whose store knows `sampleUser`, whose registry holds `sid1`, and
whose tracker is enabled at the default threshold. -/
def sampleServer : ServerState :=
  { serverName := "onyx", aesKeySize := 256, users := [sampleUser],
    security := sampleSecurityDB ⟨1, some "10.0.0.1", 0, false, none, none, none⟩,
    ipService := ⟨3, true⟩, sm := sampleSM,
    clients := fun sid => if sid = "sid1" then true else false }

/-- Store fixture for the operator service: the non-operator account 1 and
the operator account 2. -/
def sampleAdminState : AdminState :=
  ⟨[sampleUser, sampleAdmin], [], [], ⟨fun _ => none, []⟩, fun _ => none⟩

/-- The identity block cipher satisfies the `cipher.Block` contract. -/
def sampleBC : BlockCipher := ⟨id, id⟩

/-- A toy AEAD appending a 16-byte tag of zeros, satisfying the contract. -/
def sampleGCM : GCMCipher :=
  ⟨12, fun _ msg => msg ++ List.replicate 16 0, fun _ ct => some (ct.take (ct.length - 16))⟩

/-! # Theorems -/

/-! ## C7 — `GetSession` presence, expiry and the boundary -/

/-- **C7.** `GetSession` returns the session exactly when it is present and
the clock has not passed its expiry: an absent id yields the not-found
error, a present session strictly past expiry yields the expired error, and
at `now = expiresAt` (or before) the session is returned. -/
theorem claim7_getSession (sm : SessionManager) (sessionID : String) (now : Int) :
    (sm.sessions sessionID = none →
      sm.getSession sessionID now = .error "session not found") ∧
    (∀ session, sm.sessions sessionID = some session →
      (now > session.expiresAt → sm.getSession sessionID now = .error "session expired") ∧
      (now ≤ session.expiresAt → sm.getSession sessionID now = .ok session)) := by
  constructor
  · intro hnone
    simp [SessionManager.getSession, hnone]
  · intro session hsome
    constructor
    · intro hgt
      simp [SessionManager.getSession, hsome, hgt]
    · intro hle
      simp [SessionManager.getSession, hsome, not_lt.mpr hle]

/-- Witness for C7 at the registry fixture: hit at the expiry boundary,
expired one tick later, not found for an unknown id. -/
theorem claim7_witness :
    sampleSM.getSession "sid1" 100 = .ok sampleSession ∧
    sampleSM.getSession "sid1" 101 = .error "session expired" ∧
    sampleSM.getSession "missing" 100 = .error "session not found" := by
  refine ⟨?_, ?_, ?_⟩
  · exact ((claim7_getSession sampleSM "sid1" 100).2 sampleSession rfl).2 (by decide)
  · exact ((claim7_getSession sampleSM "sid1" 101).2 sampleSession rfl).1 (by decide)
  · exact (claim7_getSession sampleSM "missing" 100).1 rfl

/-! ## C9 — tracking disabled: the check is skipped wholesale -/

/-- **C9.** With `enable_ip_tracking` off, `CheckIPAndTrack` succeeds for
every account and source address and leaves the store untouched — the
address record (even a locked one) is never consulted. -/
theorem claim9_tracking_disabled (svc : IPTrackingService) (db : SecurityDB)
    (userID : Int) (currentIP : String) (now : Int)
    (hdisabled : svc.enableTracking = false) :
    svc.checkIPAndTrack db userID currentIP now = (.ok (), db) := by
  simp [IPTrackingService.checkIPAndTrack, hdisabled]

/-- Witness for C9: account 1 is locked in the store, yet with tracking
disabled the address check passes. -/
theorem claim9_witness :
    IPTrackingService.checkIPAndTrack ⟨3, false⟩ (sampleSecurityDB sampleStatusLocked) 1 "9.9.9.9" 7 =
      (.ok (), sampleSecurityDB sampleStatusLocked) ∧
    ((sampleSecurityDB sampleStatusLocked).records 1).map UserSecurityStatus.accountLocked =
      some true :=
  ⟨claim9_tracking_disabled ⟨3, false⟩ (sampleSecurityDB sampleStatusLocked) 1 "9.9.9.9" 7 rfl,
   by simp [sampleSecurityDB, sampleStatusLocked]⟩

/-! ## C1 — the address-anomaly tracker's increment/lock/update step -/

/-- **C1.** For an existing, unlocked record whose last-known address differs
from the current one, with tracking enabled: the counter is incremented; when
the post-increment count strictly exceeds the threshold the account is locked
(reason naming the count, locking operator `none`) and the call fails with the
account-locked error; otherwise (including equality with the threshold) the
last-known address is updated to the current one and the call succeeds. -/
theorem claim1_checkIPAndTrack_threshold
    (svc : IPTrackingService) (db : SecurityDB) (userID : Int) (currentIP : String)
    (now : Int) (status : UserSecurityStatus) (lastIP : String)
    (htrack : svc.enableTracking = true)
    (hrec : db.records userID = some status)
    (hunlocked : status.accountLocked = false)
    (hlast : status.lastKnownIP = some lastIP)
    (hdiff : lastIP ≠ currentIP) :
    (status.ipSuspicionCount + 1 > svc.maxSuspicion →
      (svc.checkIPAndTrack db userID currentIP now).1 =
        .error "account locked due to suspicious activity: too many IP address changes" ∧
      ((svc.checkIPAndTrack db userID currentIP now).2).records userID =
        some { status with
               ipSuspicionCount := status.ipSuspicionCount + 1
               accountLocked := true
               lockReason := some ("Too many IP address changes (" ++
                 toString (status.ipSuspicionCount + 1) ++ ")")
               lockedAt := some now
               lockedBy := none }) ∧
    (status.ipSuspicionCount + 1 ≤ svc.maxSuspicion →
      (svc.checkIPAndTrack db userID currentIP now).1 = .ok () ∧
      ((svc.checkIPAndTrack db userID currentIP now).2).records userID =
        some { status with
               ipSuspicionCount := status.ipSuspicionCount + 1
               lastKnownIP := some currentIP }) := by
  have hget : db.getSecurityStatus userID = .ok status := by
    simp [SecurityDB.getSecurityStatus, hrec]
  have hinc : db.incrementSuspicionCount userID =
      (.ok (status.ipSuspicionCount + 1),
       db.updateWhere userID (fun s => { s with ipSuspicionCount := s.ipSuspicionCount + 1 })) := by
    simp [SecurityDB.incrementSuspicionCount, SecurityDB.getSecurityStatus,
          SecurityDB.updateWhere, hrec]
  constructor
  · intro hgt
    constructor
    · simp [IPTrackingService.checkIPAndTrack, htrack, hget, hunlocked, hlast, hdiff, hinc, hgt]
    · simp [IPTrackingService.checkIPAndTrack, htrack, hget, hunlocked, hlast, hdiff, hinc, hgt,
            SecurityDB.lockAccount, SecurityDB.updateWhere, hrec]
  · intro hle
    have hngt : ¬ status.ipSuspicionCount + 1 > svc.maxSuspicion := not_lt.mpr hle
    constructor
    · simp [IPTrackingService.checkIPAndTrack, htrack, hget, hunlocked, hlast, hdiff, hinc, hngt]
    · simp [IPTrackingService.checkIPAndTrack, htrack, hget, hunlocked, hlast, hdiff, hinc, hngt,
            SecurityDB.updateLastKnownIP, SecurityDB.updateWhere, hrec]

/-- Witness for C1 at the default threshold 3: suspicion count 3 → the fourth
distinct address locks with reason naming the new count 4; suspicion count
2 → the new count 3 equals the threshold and the login still passes, the
last-known address moving to the new one. -/
theorem claim1_witness :
    (IPTrackingService.checkIPAndTrack ⟨3, true⟩ (sampleSecurityDB sampleStatusHigh) 1 "10.0.0.9" 7).1 =
      .error "account locked due to suspicious activity: too many IP address changes" ∧
    ((IPTrackingService.checkIPAndTrack ⟨3, true⟩ (sampleSecurityDB sampleStatusHigh) 1 "10.0.0.9" 7).2).records 1 =
      some ⟨1, some "10.0.0.1", 4, true, some "Too many IP address changes (4)", some 7, none⟩ ∧
    (IPTrackingService.checkIPAndTrack ⟨3, true⟩ (sampleSecurityDB sampleStatusLow) 1 "10.0.0.9" 7).1 =
      .ok () ∧
    ((IPTrackingService.checkIPAndTrack ⟨3, true⟩ (sampleSecurityDB sampleStatusLow) 1 "10.0.0.9" 7).2).records 1 =
      some ⟨1, some "10.0.0.9", 3, false, none, none, none⟩ := by
  have hHigh := claim1_checkIPAndTrack_threshold ⟨3, true⟩ (sampleSecurityDB sampleStatusHigh)
    1 "10.0.0.9" 7 sampleStatusHigh "10.0.0.1" rfl rfl rfl rfl (by decide)
  have hLow := claim1_checkIPAndTrack_threshold ⟨3, true⟩ (sampleSecurityDB sampleStatusLow)
    1 "10.0.0.9" 7 sampleStatusLow "10.0.0.1" rfl rfl rfl rfl (by decide)
  have h1 := hHigh.1 (by decide)
  have h2 := hLow.2 (by decide)
  refine ⟨h1.1, ?_, h2.1, ?_⟩
  · simpa [sampleStatusHigh] using h1.2
  · simpa [sampleStatusLow] using h2.2

/-! ## C6 — login error handling and the best-effort last-login write -/

/-- **C6.** An unknown username records a failed attempt against account id 0
and fails with exactly the same `invalid username or password` error a wrong
password produces (the error never reveals which field was wrong); a correct
password on an active account records a successful attempt and returns the
account whether or not the best-effort last-login update succeeded — the
flag only decides whether the `users` table gains the new timestamp. -/
theorem claim6_login_error_handling
    (users : List User) (db : SecurityDB) (username password ipAddress : String)
    (updateLastLoginOk : Bool) (now : Int) :
    (getByUsername users username = .error "user not found" →
      AuthService.login users db username password ipAddress updateLastLoginOk now =
        (.error "invalid username or password", users,
         db.recordLoginAttempt 0 ipAddress false none)) ∧
    (∀ user, getByUsername users username = .ok user → user.isActive = true →
      verifyPassword password user.passwordSalt user.passwordHash = false →
      AuthService.login users db username password ipAddress updateLastLoginOk now =
        (.error "invalid username or password", users,
         db.recordLoginAttempt user.userID ipAddress false none)) ∧
    (∀ user, getByUsername users username = .ok user → user.isActive = true →
      verifyPassword password user.passwordSalt user.passwordHash = true →
      (AuthService.login users db username password ipAddress updateLastLoginOk now).1 =
        .ok user ∧
      (AuthService.login users db username password ipAddress updateLastLoginOk now).2.2 =
        db.recordLoginAttempt user.userID ipAddress true none ∧
      (AuthService.login users db username password ipAddress updateLastLoginOk now).2.1 =
        (if updateLastLoginOk then updateLastLogin users user.userID now else users)) := by
  refine ⟨?_, ?_, ?_⟩
  · intro hmissing
    simp [AuthService.login, hmissing]
  · intro user hfound hactive hwrong
    simp [AuthService.login, hfound, hactive, hwrong]
  · intro user hfound hactive hright
    simp [AuthService.login, hfound, hactive, hright]

set_option maxRecDepth 200000 in
/-- Witness for C6 over a one-account store: the unknown-name and
wrong-password failures produce the identical error string with the right
attempt rows, and the correct password logs in with and without a working
last-login write. -/
theorem claim6_witness :
    (AuthService.login [sampleUser] ⟨fun _ => none, []⟩ "nosuch" "70777878" "10.0.0.1" true 5 =
      (.error "invalid username or password", [sampleUser],
       SecurityDB.recordLoginAttempt ⟨fun _ => none, []⟩ 0 "10.0.0.1" false none)) ∧
    (AuthService.login [sampleUser] ⟨fun _ => none, []⟩ "alice" "77726f6e67" "10.0.0.1" true 5 =
      (.error "invalid username or password", [sampleUser],
       SecurityDB.recordLoginAttempt ⟨fun _ => none, []⟩ 1 "10.0.0.1" false none)) ∧
    (AuthService.login [sampleUser] ⟨fun _ => none, []⟩ "alice" "68756e74657232" "10.0.0.1" true 5).1 =
      .ok sampleUser ∧
    (AuthService.login [sampleUser] ⟨fun _ => none, []⟩ "alice" "68756e74657232" "10.0.0.1" false 5).1 =
      .ok sampleUser := by
  have h1 := (claim6_login_error_handling [sampleUser] ⟨fun _ => none, []⟩ "nosuch" "70777878"
    "10.0.0.1" true 5).1 rfl
  have h2 := (claim6_login_error_handling [sampleUser] ⟨fun _ => none, []⟩ "alice" "77726f6e67"
    "10.0.0.1" true 5).2.1 sampleUser rfl rfl (by decide)
  have h3 := (claim6_login_error_handling [sampleUser] ⟨fun _ => none, []⟩ "alice" "68756e74657232"
    "10.0.0.1" true 5).2.2 sampleUser rfl rfl (by simp [sampleUser, verifyPassword])
  have h4 := (claim6_login_error_handling [sampleUser] ⟨fun _ => none, []⟩ "alice" "68756e74657232"
    "10.0.0.1" false 5).2.2 sampleUser rfl rfl (by simp [sampleUser, verifyPassword])
  exact ⟨h1, h2, h3.1, h4.1⟩

/-! ## C8 — the operator permission gate and the self-demotion check -/

/-- `RequireAdmin` on an existing non-operator actor. -/
theorem requireAdmin_not_admin (st : AdminState) (actor : Int) (u : User)
    (hfound : getUserByID st.users actor = .ok u) (hnot : u.isAdmin = false) :
    st.requireAdmin actor = .error "permission denied: admin privileges required" := by
  simp [AdminState.requireAdmin, AdminState.isAdmin, hfound, hnot]

/-- **C8.** Every operator action starts with `RequireAdmin` and, when the
actor exists but is not flagged operator, fails with the permission-denied
error leaving the store untouched; in addition `RemoveAdmin` of the actor by
themselves never succeeds and also leaves the store untouched. -/
theorem claim8_admin_gate (st : AdminState) (actor target : Int)
    (username reason message : String) (durationSeconds : Int) (limit offset : Nat) :
    (∀ u, getUserByID st.users actor = .ok u → u.isAdmin = false →
      st.makeAdmin actor target = (.error "permission denied: admin privileges required", st) ∧
      st.removeAdmin actor target = (.error "permission denied: admin privileges required", st) ∧
      st.banUser actor username reason durationSeconds =
        (.error "permission denied: admin privileges required", st) ∧
      st.unbanUser actor username = (.error "permission denied: admin privileges required", st) ∧
      st.unlockAccount actor username =
        (.error "permission denied: admin privileges required", st) ∧
      st.kickUser actor username reason =
        (.error "permission denied: admin privileges required", st) ∧
      st.broadcastMessage actor message =
        (.error "permission denied: admin privileges required", st) ∧
      st.getServerStats actor = .error "permission denied: admin privileges required" ∧
      st.getAdminLog actor limit offset =
        .error "permission denied: admin privileges required") ∧
    ((st.removeAdmin actor actor).2 = st ∧ ∀ r, (st.removeAdmin actor actor).1 ≠ .ok r) := by
  constructor
  · intro u hfound hnot
    have hgate := requireAdmin_not_admin st actor u hfound hnot
    exact ⟨by simp [AdminState.makeAdmin, hgate], by simp [AdminState.removeAdmin, hgate],
           by simp [AdminState.banUser, hgate], by simp [AdminState.unbanUser, hgate],
           by simp [AdminState.unlockAccount, hgate], by simp [AdminState.kickUser, hgate],
           by simp [AdminState.broadcastMessage, hgate],
           by simp [AdminState.getServerStats, hgate], by simp [AdminState.getAdminLog, hgate]⟩
  · cases hgate : st.requireAdmin actor with
    | error e => simp [AdminState.removeAdmin, hgate]
    | ok v => simp [AdminState.removeAdmin, hgate]

/-- Witness for C8: account 1 (not an operator) is refused with the
permission error and no state change; operator account 2 cannot demote
themselves. -/
theorem claim8_witness :
    sampleAdminState.makeAdmin 1 2 =
      (.error "permission denied: admin privileges required", sampleAdminState) ∧
    sampleAdminState.banUser 1 "eve" "spam" 60 =
      (.error "permission denied: admin privileges required", sampleAdminState) ∧
    (sampleAdminState.removeAdmin 2 2).2 = sampleAdminState ∧
    (sampleAdminState.removeAdmin 2 2).1 ≠ .ok () := by
  have h1 := (claim8_admin_gate sampleAdminState 1 2 "eve" "spam" "hello" 60 10 0).1
    sampleUser rfl rfl
  have h2 := (claim8_admin_gate sampleAdminState 2 2 "eve" "spam" "hello" 60 10 0).2
  exact ⟨h1.1, h1.2.2.1, h2.1, h2.2 ()⟩

/-! ## C4 — password digest and verification

`verify(p, s, digest(p, s)) = true` holds outright.  The other half of the
claim — `verify(p', s, digest(p, s)) = false` for *every* `p' ≠ p` — asserts
that 64-hex-character digests never collide across the infinitely many
passwords, which is false by cardinality; the refutation below is
nonconstructive, as any concrete collision for SHA-256 would be.  What the
code does guarantee is the characterization: verification accepts exactly
the passwords whose digest under the salt matches the stored one. -/

/-- A SHA-256 digest is 32 bytes. -/
theorem sha256_length (msg : List Nat) : (sha256 msg).length = 32 := by
  simp [sha256, wordBytes]

/-- Hex encoding doubles the length. -/
theorem hexEncode_length (bytes : List Nat) : (hexEncode bytes).length = 2 * bytes.length := by
  show (bytes.flatMap fun b => [hexDigit (b / 16), hexDigit (b % 16)]).length = 2 * bytes.length
  induction bytes with
  | nil => rfl
  | cons b rest ih => simp [ih]; omega

/-- `HashSHA256` always yields 64 characters. -/
theorem hashSHA256_length (s : String) : (hashSHA256 s).length = 64 := by
  simp [hashSHA256, hexEncode_length, sha256_length]

/-- Scalar values fit below `0x110000`. -/
theorem charToNat_lt (c : Char) : c.toNat < 1114112 := by
  have h := c.valid
  rcases h with h | ⟨h1, h2⟩ <;> simp [Char.toNat] <;> omega

/-- `Char` is a finite type (needed for the cardinality refutation). -/
instance : Finite Char := by
  apply Finite.of_injective (fun c : Char => (⟨c.toNat, charToNat_lt c⟩ : Fin 1114112))
  intro a b h
  simp only [Fin.mk.injEq] at h
  exact Char.eq_of_val_eq (UInt32.ext h)

/-- **C4 counterexample.** The claim's second half fails: `verifyPassword`
cannot reject every wrong password, because the digest maps infinitely many
passwords into the finite set of 64-character strings, so two distinct
passwords share a digest under the empty salt and the wrong one verifies. -/
theorem claim4_counterexample_collision :
    ¬ ∀ (p s p' : String), p' ≠ p → verifyPassword p' s (hashPassword p s) = false := by
  intro hclaim
  have hne : ∀ a b : String, a ≠ b → hashPassword a "" ≠ hashPassword b "" := by
    intro a b hab heq
    have hfalse := hclaim b "" a hab
    rw [verifyPassword, heq] at hfalse
    simp at hfalse
  let G : ℕ → (Fin 64 → Char) := fun n i =>
    (hashPassword (String.mk (List.replicate n 'a')) "").data.getD i ' '
  obtain ⟨x, y, hxy, hGxy⟩ := Finite.exists_ne_map_eq_of_infinite G
  have hrepne : String.mk (List.replicate x 'a') ≠ String.mk (List.replicate y 'a') := by
    intro h
    exact hxy (by simpa using congrArg (fun s : String => s.data.length) h)
  apply hne _ _ hrepne
  have hlen : ∀ p : String, (hashPassword p "").data.length = 64 := fun _ => hashSHA256_length _
  apply String.ext
  apply List.ext_getElem (by rw [hlen, hlen])
  intro i h1 h2
  have h1' : i < 64 := by rw [hlen] at h1; exact h1
  have hx := congrFun hGxy ⟨i, h1'⟩
  simp only [G] at hx
  rw [← List.getD_eq_getElem _ ' ' h1, ← List.getD_eq_getElem _ ' ' h2]
  exact hx

/-- **C4 amended.** For every password `p` and salt `s`,
`verify(p, s, digest(p, s)) = true`; and for every submitted `p'`,
verification against `digest(p, s)` succeeds exactly when
`digest(p', s) = digest(p, s)` — so every `p' ≠ p` is rejected except at a
digest collision (such collisions exist by cardinality but none is known
concretely). -/
theorem claim4_amended_verify_digest (p p' s : String) :
    verifyPassword p s (hashPassword p s) = true ∧
    (verifyPassword p' s (hashPassword p s) = true ↔ hashPassword p' s = hashPassword p s) := by
  constructor
  · simp [verifyPassword]
  · simp [verifyPassword]

/-! ## C5 — AES round trips: helper lemmas about blocks and padding -/

/-- XOR twice against the same mask is the identity. -/
theorem xorBytes_xorBytes : ∀ a b : List Nat, a.length = b.length →
    xorBytes (xorBytes a b) b = a := by
  intro a
  induction a with
  | nil => intro b _; rfl
  | cons x xs ih =>
    intro b hb
    cases b with
    | nil => simp at hb
    | cons y ys =>
      have hxy : xs.length = ys.length := by simpa using hb
      show ((x ^^^ y) ^^^ y) :: xorBytes (xorBytes xs ys) ys = x :: xs
      rw [Nat.xor_cancel_right, ih ys hxy]

/-- XOR of equal-length byte strings keeps the length. -/
theorem xorBytes_length (a b : List Nat) (ha : a.length = 16) (hb : b.length = 16) :
    (xorBytes a b).length = 16 := by
  simp [xorBytes, ha, hb]

/-- One unfolding step of `chunksAux 16` on a nonempty list. -/
theorem chunksAux16_cons_step (f : Nat) (l : List Nat) (hne : l ≠ []) :
    chunksAux 16 (f + 1) l = l.take 16 :: chunksAux 16 f (l.drop 16) := by
  cases l with
  | nil => exact absurd rfl hne
  | cons z zs => rfl

/-- Splitting a concatenation of 16-byte blocks recovers the blocks. -/
theorem chunksAux16_flatten : ∀ (bs : List (List Nat)) (fuel : Nat),
    bs.flatten.length ≤ fuel → (∀ b ∈ bs, b.length = 16) →
    chunksAux 16 fuel bs.flatten = bs := by
  intro bs
  induction bs with
  | nil => intro fuel _ _; cases fuel <;> rfl
  | cons b rest ih =>
    intro fuel hfuel hlens
    have hb : b.length = 16 := hlens b (by simp)
    have hbne : b ++ rest.flatten ≠ [] := by
      intro h
      have := congrArg List.length h
      simp [hb] at this
    cases fuel with
    | zero =>
      exfalso
      simp only [List.flatten_cons, List.length_append, hb] at hfuel
      omega
    | succ f =>
      simp only [List.flatten_cons]
      rw [chunksAux16_cons_step f (b ++ rest.flatten) hbne]
      rw [List.take_left' hb, List.drop_left' hb]
      rw [ih f (by simp only [List.flatten_cons, List.length_append, hb] at hfuel; omega)
        (fun x hx => hlens x (by simp [hx]))]

/-- Splitting a 16-aligned byte string gives 16-byte blocks that flatten back
to the input. -/
theorem chunksAux16_blocks : ∀ (fuel : Nat) (l : List Nat),
    l.length ≤ fuel → l.length % 16 = 0 →
    (chunksAux 16 fuel l).flatten = l ∧ ∀ b ∈ chunksAux 16 fuel l, b.length = 16 := by
  intro fuel
  induction fuel with
  | zero =>
    intro l hl _
    have : l = [] := List.length_eq_zero.mp (by omega)
    subst this
    exact ⟨rfl, by simp [chunksAux]⟩
  | succ f ih =>
    intro l hl hmod
    cases l with
    | nil => exact ⟨rfl, by simp [chunksAux]⟩
    | cons z zs =>
      have hne0 : (z :: zs).length ≠ 0 := by simp
      have hlen16 : 16 ≤ (z :: zs).length := by omega
      have hdlen : ((z :: zs).drop 16).length = (z :: zs).length - 16 := List.length_drop 16 _
      rw [chunksAux16_cons_step f (z :: zs) (by simp)]
      have ihd := ih ((z :: zs).drop 16) (by omega) (by omega)
      constructor
      · simp only [List.flatten_cons, ihd.1, List.take_append_drop]
      · intro b hb
        rcases List.mem_cons.mp hb with h | h
        · subst h
          have := List.length_take 16 (z :: zs)
          simp only [this]
          omega
        · exact ihd.2 b h

/-- `chunks 16` on a 16-aligned string: the blocks flatten back and each is
16 bytes. -/
theorem chunks16_blocks (l : List Nat) (hmod : l.length % 16 = 0) :
    (chunks 16 l).flatten = l ∧ ∀ b ∈ chunks 16 l, b.length = 16 := by
  unfold chunks
  exact chunksAux16_blocks l.length l le_rfl hmod

/-- `chunks 16` after flattening 16-byte blocks recovers the blocks. -/
theorem chunks16_flatten (bs : List (List Nat)) (h : ∀ b ∈ bs, b.length = 16) :
    chunks 16 bs.flatten = bs := by
  unfold chunks
  exact chunksAux16_flatten bs _ le_rfl h

/-- A list of 16-byte blocks flattens to `16 *` its block count. -/
theorem flatten_length_16 : ∀ bs : List (List Nat), (∀ b ∈ bs, b.length = 16) →
    bs.flatten.length = 16 * bs.length := by
  intro bs
  induction bs with
  | nil => intro _; rfl
  | cons b rest ih =>
    intro h
    simp only [List.flatten_cons, List.length_append, List.length_cons,
      h b (by simp), ih (fun x hx => h x (by simp [hx]))]
    ring

/-- CBC ciphertext blocks are 16 bytes when the inputs are. -/
theorem cbcEncryptBlocks_lengths (bc : BlockCipher) (hbc : bc.Sound) :
    ∀ (ps : List (List Nat)) (prev : List Nat), (∀ p ∈ ps, p.length = 16) →
    prev.length = 16 → ∀ b ∈ cbcEncryptBlocks bc prev ps, b.length = 16 := by
  intro ps
  induction ps with
  | nil => intro prev _ _ b hb; simp [cbcEncryptBlocks] at hb
  | cons p rest ih =>
    intro prev hps hprev b hb
    have hp : p.length = 16 := hps p (by simp)
    have hc : (bc.encryptBlock (xorBytes p prev)).length = 16 :=
      hbc.1 _ (xorBytes_length p prev hp hprev)
    simp only [cbcEncryptBlocks, List.mem_cons] at hb
    rcases hb with h | h
    · rw [h]; exact hc
    · exact ih _ (fun x hx => hps x (by simp [hx])) hc b h

/-- CBC decryption chains back through CBC encryption. -/
theorem cbcDecrypt_cbcEncrypt (bc : BlockCipher) (hbc : bc.Sound) :
    ∀ (ps : List (List Nat)) (prev : List Nat), (∀ p ∈ ps, p.length = 16) →
    prev.length = 16 →
    cbcDecryptBlocks bc prev (cbcEncryptBlocks bc prev ps) = ps := by
  intro ps
  induction ps with
  | nil => intro prev _ _; rfl
  | cons p rest ih =>
    intro prev hps hprev
    have hp : p.length = 16 := hps p (by simp)
    have hxl : (xorBytes p prev).length = 16 := xorBytes_length p prev hp hprev
    simp only [cbcEncryptBlocks, cbcDecryptBlocks]
    rw [hbc.2 _ hxl, xorBytes_xorBytes p prev (by omega),
        ih _ (fun x hx => hps x (by simp [hx])) (hbc.1 _ hxl)]

/-- The last element of a nonempty replicate. -/
theorem getLast?_replicate_succ (k x : Nat) : (List.replicate (k + 1) x).getLast? = some x := by
  rw [List.replicate_succ', List.getLast?_concat]

/-- Stripping PKCS#7 padding undoes applying it (block size 16). -/
theorem pkcs7Unpad_pkcs7Pad (data : List Nat) :
    pkcs7Unpad (pkcs7Pad data 16) 16 = .ok data := by
  have hp1 : 1 ≤ 16 - data.length % 16 := by omega
  have hp2 : 16 - data.length % 16 ≤ 16 := by omega
  set p := 16 - data.length % 16 with hp
  have hlast : (data ++ List.replicate p p).getLast? = some p := by
    rcases Nat.exists_eq_add_of_le hp1 with ⟨k, hk⟩
    rw [List.getLast?_append, hk, Nat.add_comm, getLast?_replicate_succ]
    rfl
  have hlen : (data ++ List.replicate p p).length = data.length + p := by simp
  have hsub : data.length + p - p = data.length := by omega
  have hdrop : (data ++ List.replicate p p).drop data.length = List.replicate p p :=
    List.drop_left' rfl
  have htake : (data ++ List.replicate p p).take data.length = data :=
    List.take_left' rfl
  rw [pkcs7Pad, pkcs7Unpad]
  simp only [← hp, hlen, hlast, Option.getD_some]
  rw [if_neg (by omega)]
  rw [if_neg (by push_neg; omega)]
  rw [if_pos]
  · rw [hsub, htake]
  · rw [hsub, hdrop]
    simp [List.all_eq_true, List.mem_replicate]

/-- **C5.** Decrypting the output of encryption under the same cipher state
returns the plaintext: in GCM mode the wire layout is
`nonce || ciphertext_with_tag` with a 12-byte nonce and a 16-byte tag
(output length `12 + |m| + 16`) and empty associated data; in CBC mode the
wire layout is `IV || ciphertext` with PKCS#7 padding.  `bc`/`g` are the
block cipher and AEAD the Go standard library returns for a valid AES key,
assumed only to satisfy their documented contracts. -/
theorem claim5_aes_roundtrip (bc : BlockCipher) (g : GCMCipher) (iv nonce m : List Nat)
    (hbc : bc.Sound) (hg : g.Sound) (hiv : iv.length = 16) (hnonce : nonce.length = 12) :
    decryptAESGCM g (encryptAESGCM g nonce m) = .ok m ∧
    (encryptAESGCM g nonce m).length = 12 + (m.length + 16) ∧
    decryptAESCBC bc (encryptAESCBC bc iv m) = .ok m := by
  obtain ⟨hns, hslen, hopen⟩ := hg
  have hct : (nonce ++ g.sealFn nonce m).length = 12 + (m.length + 16) := by
    simp [hslen nonce m hnonce, hnonce]
  refine ⟨?_, hct, ?_⟩
  · have hlt : ¬ (nonce ++ g.sealFn nonce m).length < 12 := by rw [hct]; omega
    rw [decryptAESGCM, encryptAESGCM, hns]
    simp only [if_neg hlt, List.take_left' hnonce, List.drop_left' hnonce,
      hopen nonce m hnonce]
  · have hPmod : (pkcs7Pad m 16).length % 16 = 0 := by simp [pkcs7Pad]; omega
    obtain ⟨hPflat, hPmem⟩ := chunks16_blocks (pkcs7Pad m 16) hPmod
    have hEmem := cbcEncryptBlocks_lengths bc hbc (chunks 16 (pkcs7Pad m 16)) iv hPmem hiv
    have hElen := flatten_length_16 _ hEmem
    have h1 : ¬ (iv ++ (cbcEncryptBlocks bc iv (chunks 16 (pkcs7Pad m 16))).flatten).length < 16 := by
      simp [hiv]
    have h2 : ¬ (cbcEncryptBlocks bc iv (chunks 16 (pkcs7Pad m 16))).flatten.length % 16 ≠ 0 := by
      push_neg
      rw [hElen]
      omega
    rw [decryptAESCBC, encryptAESCBC]
    simp only [if_neg h1, List.take_left' hiv, List.drop_left' hiv, if_neg h2,
      chunks16_flatten _ hEmem, cbcDecrypt_cbcEncrypt bc hbc _ iv hPmem hiv, hPflat,
      pkcs7Unpad_pkcs7Pad]

/-- Witness for C5: round trips on a concrete plaintext under concrete
instantiations of the stdlib contracts. -/
theorem claim5_witness :
    decryptAESGCM sampleGCM (encryptAESGCM sampleGCM (List.replicate 12 0) [1, 2, 3]) =
      .ok [1, 2, 3] ∧
    decryptAESCBC sampleBC (encryptAESCBC sampleBC (List.replicate 16 0) [1, 2, 3]) =
      .ok [1, 2, 3] := by
  have hbc : sampleBC.Sound := ⟨fun _ h => h, fun _ _ => rfl⟩
  have hg : sampleGCM.Sound := by
    refine ⟨rfl, ?_, ?_⟩
    · intro nonce msg _; simp [sampleGCM]
    · intro nonce msg _
      simp only [sampleGCM, List.length_append, List.length_replicate,
        Nat.add_sub_cancel, Option.some.injEq]
      exact List.take_left' rfl
  have h := claim5_aes_roundtrip sampleBC sampleGCM (List.replicate 16 0)
    (List.replicate 12 0) [1, 2, 3] hbc hg (by simp) (by simp)
  exact ⟨h.1, h.2.2⟩

/-! ## C10 — the session registry's two indexes stay consistent -/

/-- Folding map deletions over a list of keys deletes exactly those keys. -/
theorem foldl_delete_eq (ids : List String) (m : String → Option Session) (x : String) :
    ids.foldl (fun acc sid => fun y => if y = sid then none else acc y) m x =
      if x ∈ ids then none else m x := by
  induction ids generalizing m with
  | nil => simp
  | cons i is ih =>
    simp only [List.foldl_cons, ih, List.mem_cons]
    split_ifs <;> simp_all

/-- `CreateSession` of a fresh id preserves well-formedness. -/
theorem createSession_WF (sm : SessionManager) (user : User) (ip : String)
    (key : List Nat) (sessionID : String) (now : Int) (h : sm.WF)
    (hfresh : sm.sessions sessionID = none) :
    ((sm.createSession user ip key sessionID now).2).WF := by
  obtain ⟨⟨hA, hB, hC⟩, hN⟩ := h
  have hprevnodup : ((sm.userSessions user.userID).getD []).Nodup := by
    cases hu : sm.userSessions user.userID with
    | none => simp
    | some l => simpa using hN _ _ hu
  have hsidprev : sessionID ∉ (sm.userSessions user.userID).getD [] := by
    intro hmem
    cases hu : sm.userSessions user.userID with
    | none => rw [hu] at hmem; simp at hmem
    | some l =>
      rw [hu] at hmem
      obtain ⟨s, hs, _⟩ := hA user.userID l sessionID hu (by simpa using hmem)
      rw [hfresh] at hs
      exact Option.noConfusion hs
  refine ⟨⟨?_, ?_, ?_⟩, ?_⟩
  · intro uid ids sid' hids hmem
    simp only [SessionManager.createSession] at hids ⊢
    by_cases huid : uid = user.userID
    · subst huid
      rw [if_pos rfl] at hids
      have hids' : (sm.userSessions user.userID).getD [] ++ [sessionID] = ids := by
        injection hids
      rw [← hids'] at hmem
      rcases List.mem_append.mp hmem with hm | hm
      · cases hu : sm.userSessions user.userID with
        | none => rw [hu] at hm; simp at hm
        | some l =>
          rw [hu] at hm
          obtain ⟨s, hs, hsu⟩ := hA user.userID l sid' hu (by simpa using hm)
          have hne : sid' ≠ sessionID := by
            intro heq; rw [heq, hfresh] at hs; exact Option.noConfusion hs
          exact ⟨s, by rw [if_neg hne]; exact hs, hsu⟩
      · have : sid' = sessionID := by simpa using hm
        subst this
        exact ⟨_, by rw [if_pos rfl], rfl⟩
    · rw [if_neg huid] at hids
      obtain ⟨s, hs, hsu⟩ := hA uid ids sid' hids hmem
      have hne : sid' ≠ sessionID := by
        intro heq; rw [heq, hfresh] at hs; exact Option.noConfusion hs
      exact ⟨s, by rw [if_neg hne]; exact hs, hsu⟩
  · intro sid' s hs
    simp only [SessionManager.createSession] at hs ⊢
    by_cases hsid : sid' = sessionID
    · subst hsid
      rw [if_pos rfl] at hs
      have hsu : s.userID = user.userID := by
        cases hs; rfl
      rw [hsu, if_pos rfl]
      refine ⟨_, rfl, ?_⟩
      simp
    · rw [if_neg hsid] at hs
      obtain ⟨ids, hids, hmem⟩ := hB sid' s hs
      by_cases hu : s.userID = user.userID
      · rw [hu, if_pos rfl]
        refine ⟨_, rfl, ?_⟩
        rw [← hu, hids]
        simp only [Option.getD_some]
        exact List.mem_append.mpr (Or.inl hmem)
      · rw [if_neg hu]
        exact ⟨ids, hids, hmem⟩
  · intro uid ids hids
    simp only [SessionManager.createSession] at hids
    by_cases huid : uid = user.userID
    · rw [if_pos huid] at hids
      intro hnil
      rw [hnil] at hids
      have hids' : (sm.userSessions user.userID).getD [] ++ [sessionID] = [] := by
        injection hids
      simp at hids'
    · rw [if_neg huid] at hids
      exact hC uid ids hids
  · intro uid ids hids
    simp only [SessionManager.createSession] at hids
    by_cases huid : uid = user.userID
    · subst huid
      rw [if_pos rfl] at hids
      have hids' : (sm.userSessions user.userID).getD [] ++ [sessionID] = ids := by
        injection hids
      rw [← hids']
      simp [List.nodup_append, hprevnodup, hsidprev]
    · rw [if_neg huid] at hids
      exact hN uid ids hids

/-- `UpdateActivity` preserves well-formedness. -/
theorem updateActivity_WF (sm : SessionManager) (sessionID : String) (now : Int)
    (h : sm.WF) : ((sm.updateActivity sessionID now).2).WF := by
  obtain ⟨⟨hA, hB, hC⟩, hN⟩ := h
  cases hs : sm.sessions sessionID with
  | none => simpa [SessionManager.updateActivity, hs] using ⟨⟨hA, hB, hC⟩, hN⟩
  | some session =>
    simp only [SessionManager.updateActivity, hs]
    refine ⟨⟨?_, ?_, ?_⟩, ?_⟩
    · intro uid ids sid' hids hmem
      dsimp only at hids ⊢
      obtain ⟨s, hs', hsu⟩ := hA uid ids sid' hids hmem
      by_cases hsid : sid' = sessionID
      · rw [hsid, hs] at hs'
        injection hs' with hseq
        refine ⟨{ session with lastActivity := now, expiresAt := now + sm.sessionTimeout },
          by rw [if_pos hsid], ?_⟩
        show session.userID = uid
        rw [hseq]
        exact hsu
      · exact ⟨s, by rw [if_neg hsid]; exact hs', hsu⟩
    · intro sid' s hs'
      dsimp only at hs' ⊢
      by_cases hsid : sid' = sessionID
      · rw [if_pos hsid] at hs'
        injection hs' with hseq
        have hsu : s.userID = session.userID := by rw [← hseq]
        rw [hsu, hsid]
        exact hB sessionID session hs
      · rw [if_neg hsid] at hs'
        exact hB sid' s hs'
    · intro uid ids hids
      dsimp only at hids
      exact hC uid ids hids
    · intro uid ids hids
      dsimp only at hids
      exact hN uid ids hids

/-- `DestroySession` preserves well-formedness. -/
theorem destroySession_WF (sm : SessionManager) (sessionID : String) (h : sm.WF) :
    ((sm.destroySession sessionID).2).WF := by
  obtain ⟨⟨hA, hB, hC⟩, hN⟩ := h
  cases hs : sm.sessions sessionID with
  | none => simpa [SessionManager.destroySession, hs] using ⟨⟨hA, hB, hC⟩, hN⟩
  | some session =>
    obtain ⟨ids0, hids0, hsidmem⟩ := hB sessionID session hs
    have hprev : (sm.userSessions session.userID).getD [] = ids0 := by rw [hids0]; rfl
    have hnodup0 : ids0.Nodup := hN _ _ hids0
    have hmemerase : ∀ a, a ∈ ids0.erase sessionID ↔ a ≠ sessionID ∧ a ∈ ids0 :=
      fun a => hnodup0.mem_erase_iff
    simp only [SessionManager.destroySession, hs, hprev]
    refine ⟨⟨?_, ?_, ?_⟩, ?_⟩
    · intro uid ids sid' hids hmem
      dsimp only at hids ⊢
      by_cases huid : uid = session.userID
      · subst huid
        rw [if_pos rfl] at hids
        by_cases hrem : ids0.erase sessionID = []
        · rw [if_pos hrem] at hids; exact Option.noConfusion hids
        · rw [if_neg hrem] at hids
          injection hids with hids'
          rw [← hids'] at hmem
          obtain ⟨hne, hmem0⟩ := (hmemerase sid').mp hmem
          obtain ⟨s, hs', hsu⟩ := hA session.userID ids0 sid' hids0 hmem0
          exact ⟨s, by rw [if_neg hne]; exact hs', hsu⟩
      · rw [if_neg huid] at hids
        obtain ⟨s, hs', hsu⟩ := hA uid ids sid' hids hmem
        have hne : sid' ≠ sessionID := by
          intro heq
          rw [heq, hs] at hs'
          injection hs' with hs''
          rw [← hs''] at hsu
          exact huid hsu.symm
        exact ⟨s, by rw [if_neg hne]; exact hs', hsu⟩
    · intro sid' s hs'
      dsimp only at hs' ⊢
      by_cases hsid : sid' = sessionID
      · rw [if_pos hsid] at hs'; exact Option.noConfusion hs'
      · rw [if_neg hsid] at hs'
        obtain ⟨ids, hids, hmem⟩ := hB sid' s hs'
        by_cases hu : s.userID = session.userID
        · rw [hu, if_pos rfl]
          rw [hu, hids0] at hids
          injection hids with hids'
          rw [← hids'] at hmem
          have hmem' : sid' ∈ ids0.erase sessionID := (hmemerase sid').mpr ⟨hsid, hmem⟩
          rw [if_neg (List.ne_nil_of_mem hmem')]
          exact ⟨_, rfl, hmem'⟩
        · rw [if_neg hu]
          exact ⟨ids, hids, hmem⟩
    · intro uid ids hids
      dsimp only at hids
      by_cases huid : uid = session.userID
      · rw [if_pos huid] at hids
        by_cases hrem : ids0.erase sessionID = []
        · rw [if_pos hrem] at hids; exact Option.noConfusion hids
        · rw [if_neg hrem] at hids
          injection hids with hids'
          rw [← hids']
          exact hrem
      · rw [if_neg huid] at hids
        exact hC uid ids hids
    · intro uid ids hids
      dsimp only at hids
      by_cases huid : uid = session.userID
      · rw [if_pos huid] at hids
        by_cases hrem : ids0.erase sessionID = []
        · rw [if_pos hrem] at hids; exact Option.noConfusion hids
        · rw [if_neg hrem] at hids
          injection hids with hids'
          rw [← hids']
          exact hnodup0.erase sessionID
      · rw [if_neg huid] at hids
        exact hN uid ids hids

/-- `DestroyUserSessions` preserves well-formedness. -/
theorem destroyUserSessions_WF (sm : SessionManager) (userID : Int) (h : sm.WF) :
    ((sm.destroyUserSessions userID).2).WF := by
  obtain ⟨⟨hA, hB, hC⟩, hN⟩ := h
  cases hu0 : sm.userSessions userID with
  | none => simpa [SessionManager.destroyUserSessions, hu0] using ⟨⟨hA, hB, hC⟩, hN⟩
  | some ids0 =>
    simp only [SessionManager.destroyUserSessions, hu0]
    refine ⟨⟨?_, ?_, ?_⟩, ?_⟩
    · intro uid ids sid' hids hmem
      dsimp only at hids ⊢
      by_cases huid : uid = userID
      · rw [if_pos huid] at hids; exact Option.noConfusion hids
      · rw [if_neg huid] at hids
        obtain ⟨s, hs, hsu⟩ := hA uid ids sid' hids hmem
        have hnot : sid' ∉ ids0 := by
          intro hin
          obtain ⟨s2, hs2, hsu2⟩ := hA userID ids0 sid' hu0 hin
          rw [hs] at hs2
          injection hs2 with hs2'
          rw [← hs2'] at hsu2
          exact huid (hsu.symm.trans hsu2)
        refine ⟨s, ?_, hsu⟩
        rw [foldl_delete_eq, if_neg hnot]
        exact hs
    · intro sid' s hs
      dsimp only at hs ⊢
      rw [foldl_delete_eq] at hs
      by_cases hin : sid' ∈ ids0
      · rw [if_pos hin] at hs; exact Option.noConfusion hs
      · rw [if_neg hin] at hs
        obtain ⟨ids, hids, hmem⟩ := hB sid' s hs
        have hu : s.userID ≠ userID := by
          intro heq
          rw [heq, hu0] at hids
          injection hids with hids'
          rw [← hids'] at hmem
          exact hin hmem
        rw [if_neg hu]
        exact ⟨ids, hids, hmem⟩
    · intro uid ids hids
      dsimp only at hids
      by_cases huid : uid = userID
      · rw [if_pos huid] at hids; exact Option.noConfusion hids
      · rw [if_neg huid] at hids
        exact hC uid ids hids
    · intro uid ids hids
      dsimp only at hids
      by_cases huid : uid = userID
      · rw [if_pos huid] at hids; exact Option.noConfusion hids
      · rw [if_neg huid] at hids
        exact hN uid ids hids

/-- **C10.** From any well-formed registry state, each of the four mutation
operations — `CreateSession` (of a fresh random id), `UpdateActivity`,
`DestroySession`, `DestroyUserSessions` — yields a state in which the two
indexes are still mutually consistent: every listed id resolves to a session
of that account, every stored session is listed under its account, an
account whose list empties loses its entry, and no list repeats an id. -/
theorem claim10_registry_consistency (sm : SessionManager) (h : sm.WF)
    (user : User) (ip : String) (key : List Nat) (newSID : String) (now : Int)
    (hfresh : sm.sessions newSID = none) (sid : String) (uid : Int) :
    ((sm.createSession user ip key newSID now).2).WF ∧
    ((sm.updateActivity sid now).2).WF ∧
    ((sm.destroySession sid).2).WF ∧
    ((sm.destroyUserSessions uid).2).WF :=
  ⟨createSession_WF sm user ip key newSID now h hfresh,
   updateActivity_WF sm sid now h,
   destroySession_WF sm sid h,
   destroyUserSessions_WF sm uid h⟩

/-- The fixture registry is well-formed. -/
theorem sampleSM_WF : sampleSM.WF := by
  refine ⟨⟨?_, ?_, ?_⟩, ?_⟩
  · intro uid ids sid hids hmem
    simp only [sampleSM] at hids ⊢
    split_ifs at hids with h1
    injection hids with hids'
    rw [← hids'] at hmem
    have hsid : sid = "sid1" := by simpa using hmem
    subst hsid
    rw [if_pos rfl]
    exact ⟨sampleSession, rfl, h1.symm⟩
  · intro sid s hsid
    simp only [sampleSM] at hsid ⊢
    split_ifs at hsid with h1
    injection hsid with hsid'
    rw [← hsid']
    exact ⟨["sid1"], by simp [sampleSession], by simp [h1]⟩
  · intro uid ids hids
    simp only [sampleSM] at hids
    split_ifs at hids with h1
    injection hids with hids'
    rw [← hids']
    simp
  · intro uid ids hids
    simp only [sampleSM] at hids
    split_ifs at hids with h1
    injection hids with hids'
    rw [← hids']
    simp

/-- Witness for C10: each operation applied to the concrete one-session
registry yields a well-formed registry. -/
theorem claim10_witness :
    ((sampleSM.createSession sampleAdmin "10.0.0.2" [3] "sid2" 50).2).WF ∧
    ((sampleSM.updateActivity "sid1" 50).2).WF ∧
    ((sampleSM.destroySession "sid1").2).WF ∧
    ((sampleSM.destroyUserSessions 1).2).WF :=
  claim10_registry_consistency sampleSM sampleSM_WF sampleAdmin "10.0.0.2" [3] "sid2" 50
    rfl "sid1" 1

/-! ## C2 — a second LOGIN on an authenticated connection is **not** rejected

`handleLogin` has no `authenticated` guard: on an already-authenticated
connection with valid credentials it authenticates again, creates a second
session (the first stays live in the registry), and swaps the connection's
session id.  The specification's design choice ("reject the second attempt")
is not enforced anywhere in `processCommand` or `handleLogin`. -/

set_option maxRecDepth 1000000 in
/-- **C2 (code evaluated at the failing input).** An authenticated connection
(`sid1`, account `alice`) re-sends a valid `LOGIN`: the handler returns
success, the connection stays authenticated but now under the fresh session
id `sid2`, the old session `sid1` is still registered, and a second live
session `sid2` for the same account exists — the second LOGIN was accepted,
contradicting the claim that it is rejected. -/
theorem claim2_double_login_accepted :
    (handleLogin sampleAuthedClient sampleServer ["LOGIN", "alice", "68756e74657232"]
      ⟨"salt", [9, 9], "sid2", true, 60⟩).res = .ok () ∧
    (handleLogin sampleAuthedClient sampleServer ["LOGIN", "alice", "68756e74657232"]
      ⟨"salt", [9, 9], "sid2", true, 60⟩).client.authenticated = true ∧
    (handleLogin sampleAuthedClient sampleServer ["LOGIN", "alice", "68756e74657232"]
      ⟨"salt", [9, 9], "sid2", true, 60⟩).client.sessionID = "sid2" ∧
    (handleLogin sampleAuthedClient sampleServer ["LOGIN", "alice", "68756e74657232"]
      ⟨"salt", [9, 9], "sid2", true, 60⟩).server.sm.sessions "sid1" = some sampleSession ∧
    (handleLogin sampleAuthedClient sampleServer ["LOGIN", "alice", "68756e74657232"]
      ⟨"salt", [9, 9], "sid2", true, 60⟩).server.sm.sessions "sid2" =
      some ⟨"sid2", 1, sampleUser, "10.0.0.1", [9, 9], 60, 60, 3660⟩ ∧
    (handleLogin sampleAuthedClient sampleServer ["LOGIN", "alice", "68756e74657232"]
      ⟨"salt", [9, 9], "sid2", true, 60⟩).server.sm.userSessions 1 = some ["sid1", "sid2"] :=
  ⟨rfl, rfl, rfl, rfl, rfl, rfl⟩

/-! ## C3 — the AWAITING_AUTH command gate -/

/-- **C3 amended.** On an unauthenticated connection, for every line whose
first field uppercases to `JOIN`, `PART`, `PRIVMSG` or `ADMIN` the command
fails with the `not authenticated` error and both states are unchanged; a
first field outside the command vocabulary fails with the unknown-command
error, states unchanged; and no command outside `REGISTER`, `LOGIN`,
`KEYEXCHANGE`, `PING`, `PONG`, `QUIT` ever succeeds (the original claim
omitted `PONG`, which the dispatcher accepts as a no-op even before
authentication).  Quantified over every gated handler body `H`, hence valid
for the real channel/admin/key-exchange logic. -/
theorem claim3_amended_awaiting_auth_gate (H : GatedHandlers) (env : RandomEnv)
    (c : ClientState) (srv : ServerState) (line cmd : String) (rest : List String)
    (hunauth : c.authenticated = false) (hfields : fields line = cmd :: rest) :
    ((toUpperStr cmd = "JOIN" ∨ toUpperStr cmd = "PART" ∨ toUpperStr cmd = "PRIVMSG" ∨
        toUpperStr cmd = "ADMIN") →
      processCommand H env c srv line = ⟨.error "not authenticated", c, srv⟩) ∧
    (toUpperStr cmd ∉ knownCommands →
      processCommand H env c srv line =
        ⟨.error ("unknown command: " ++ toUpperStr cmd), c, srv⟩) ∧
    (toUpperStr cmd ∉ ["REGISTER", "LOGIN", "KEYEXCHANGE", "PING", "PONG", "QUIT"] →
      (processCommand H env c srv line).res ≠ .ok ()) := by
  have hauth : requireAuth c = .error "not authenticated" := by
    simp [requireAuth, hunauth]
  have hgated : ∀ hcmd : toUpperStr cmd = "JOIN" ∨ toUpperStr cmd = "PART" ∨
      toUpperStr cmd = "PRIVMSG" ∨ toUpperStr cmd = "ADMIN",
      processCommand H env c srv line = ⟨.error "not authenticated", c, srv⟩ := by
    intro hcmd
    rcases hcmd with hc | hc | hc | hc <;>
      simp [processCommand, hfields, hc, handleJoin, handlePart, handlePrivMsg,
        handleAdminCommand, handleKeyExchange, hauth]
  have hunknown : ∀ _ : toUpperStr cmd ∉ knownCommands,
      processCommand H env c srv line =
        ⟨.error ("unknown command: " ++ toUpperStr cmd), c, srv⟩ := by
    intro hmem
    simp only [knownCommands, List.mem_cons, List.not_mem_nil, or_false, not_or] at hmem
    obtain ⟨h1, h2, h3, h4, h5, h6, h7, h8, h9, h10⟩ := hmem
    simp only [processCommand, hfields]
    rw [if_neg h1, if_neg h2, if_neg h3, if_neg h4, if_neg h5, if_neg h6, if_neg h7,
      if_neg h8, if_neg h9, if_neg h10]
  refine ⟨hgated, hunknown, ?_⟩
  intro hsix
  simp only [List.mem_cons, List.not_mem_nil, or_false, not_or] at hsix
  obtain ⟨h1, h2, h3, h4, h5, h6⟩ := hsix
  by_cases hJ : toUpperStr cmd = "JOIN"
  · rw [hgated (Or.inl hJ)]; simp
  by_cases hP : toUpperStr cmd = "PART"
  · rw [hgated (Or.inr (Or.inl hP))]; simp
  by_cases hM : toUpperStr cmd = "PRIVMSG"
  · rw [hgated (Or.inr (Or.inr (Or.inl hM)))]; simp
  by_cases hAd : toUpperStr cmd = "ADMIN"
  · rw [hgated (Or.inr (Or.inr (Or.inr hAd)))]; simp
  rw [hunknown (by simp [knownCommands]; exact ⟨h1, h2, h3, hJ, hP, hM, h6, h4, h5, hAd⟩)]
  simp

set_option maxRecDepth 100000 in
/-- **C3 counterexample.** The claim as stated — while unauthenticated no
command outside `REGISTER`, `LOGIN`, `KEYEXCHANGE`, `PING`, `QUIT` succeeds —
is false: `PONG`, which is none of those five, returns success (`nil`) on an
unauthenticated connection. -/
theorem claim3_counterexample_pong :
    ¬ ∀ (H : GatedHandlers) (env : RandomEnv) (c : ClientState) (srv : ServerState)
        (line cmd : String) (rest : List String),
      c.authenticated = false → fields line = cmd :: rest →
      toUpperStr cmd ∉ ["REGISTER", "LOGIN", "KEYEXCHANGE", "PING", "QUIT"] →
      (processCommand H env c srv line).res ≠ .ok () := by
  intro hclaim
  exact hclaim trivialHandlers ⟨"", [], "", true, 0⟩ sampleUnauthClient sampleServer
    "PONG" "PONG" [] rfl (by decide) (by decide) rfl

set_option maxRecDepth 100000 in
/-- Witness for C3 at concrete commands: unauthenticated `JOIN`, `ADMIN` and
`PRIVMSG` fail with `not authenticated` leaving both states untouched, a made-up
command fails as unknown, and an unauthenticated `KEYEXCHANGE` does not
succeed. -/
theorem claim3_witness :
    processCommand trivialHandlers ⟨"", [], "", true, 0⟩ sampleUnauthClient sampleServer
      "JOIN #general" = ⟨.error "not authenticated", sampleUnauthClient, sampleServer⟩ ∧
    processCommand trivialHandlers ⟨"", [], "", true, 0⟩ sampleUnauthClient sampleServer
      "ADMIN stats" = ⟨.error "not authenticated", sampleUnauthClient, sampleServer⟩ ∧
    processCommand trivialHandlers ⟨"", [], "", true, 0⟩ sampleUnauthClient sampleServer
      "PRIVMSG bob :hi" = ⟨.error "not authenticated", sampleUnauthClient, sampleServer⟩ ∧
    processCommand trivialHandlers ⟨"", [], "", true, 0⟩ sampleUnauthClient sampleServer
      "FROBNICATE" =
      ⟨.error ("unknown command: " ++ toUpperStr "FROBNICATE"), sampleUnauthClient, sampleServer⟩ ∧
    (processCommand trivialHandlers ⟨"", [], "", true, 0⟩ sampleUnauthClient sampleServer
      "KEYEXCHANGE x").res ≠ .ok () := by
  refine ⟨?_, ?_, ?_, ?_, ?_⟩
  · exact (claim3_amended_awaiting_auth_gate trivialHandlers ⟨"", [], "", true, 0⟩
      sampleUnauthClient sampleServer "JOIN #general" "JOIN" ["#general"] rfl (by decide)).1
      (Or.inl (by decide))
  · exact (claim3_amended_awaiting_auth_gate trivialHandlers ⟨"", [], "", true, 0⟩
      sampleUnauthClient sampleServer "ADMIN stats" "ADMIN" ["stats"] rfl (by decide)).1
      (Or.inr (Or.inr (Or.inr (by decide))))
  · exact (claim3_amended_awaiting_auth_gate trivialHandlers ⟨"", [], "", true, 0⟩
      sampleUnauthClient sampleServer "PRIVMSG bob :hi" "PRIVMSG" ["bob", ":hi"] rfl
      (by decide)).1 (Or.inr (Or.inr (Or.inl (by decide))))
  · exact (claim3_amended_awaiting_auth_gate trivialHandlers ⟨"", [], "", true, 0⟩
      sampleUnauthClient sampleServer "FROBNICATE" "FROBNICATE" [] rfl (by decide)).2.1
      (by decide)
  · have hkx : (processCommand trivialHandlers ⟨"", [], "", true, 0⟩ sampleUnauthClient
        sampleServer "KEYEXCHANGE x").res = .error "not authenticated" := rfl
    rw [hkx]
    exact fun h => Except.noConfusion h

end OnyxIRC
